import Mathlib

/-!
Verification of the analytics core of `rootly-analytics-backend`.

The definitions below are a shallow embedding of the Python sources:

* `src/core/domain/measurement.py` — the `Measurement` dataclass and its
  `__post_init__` validation;
* `src/core/services/analytics_calculations.py` — the pure calculation
  library (`AnalyticsCalculations`);
* `src/core/services/analytics_service_impl.py` — the analytics engine
  (`AnalyticsServiceImpl`): single/multi reports and historical averages.

Modelling conventions:

* Python `float` values are modelled as exact rationals (`ℚ`); the formulas
  that are genuinely transcendental (`math.exp`, `math.log`, `math.sqrt`)
  are modelled over `ℝ` with `Real.exp`/`Real.log`/`Real.sqrt`.
* `datetime` instants are modelled as integer seconds since the epoch (`ℤ`);
  `timedelta` values are integer second counts.
* The repository port is modelled by passing the list of measurements that
  `get_measurements` returned (or, for the multi-report, by a function from
  controller id to the fetch outcome).
* Python exceptions are modelled by `Except AnalyticsError`; the
  wall-clock field `generated_at` (from `datetime.now()`) is omitted from
  the embedded report records since no claim mentions it.
-/

namespace Rootly

instance {ε α : Type _} [DecidableEq ε] [DecidableEq α] : DecidableEq (Except ε α) :=
  fun a b =>
    match a, b with
    | .ok x, .ok y =>
        if h : x = y then isTrue (by rw [h]) else isFalse (fun hh => h (Except.ok.inj hh))
    | .error x, .error y =>
        if h : x = y then isTrue (by rw [h]) else isFalse (fun hh => h (Except.error.inj hh))
    | .ok _, .error _ => isFalse (fun hh => Except.noConfusion hh)
    | .error _, .ok _ => isFalse (fun hh => Except.noConfusion hh)

/-- Error taxonomy of `src/core/ports/exceptions.py`, restricted to the
constructors actually raised by the embedded code.  `valueError` models a
Python `ValueError` raised by a calculation; `serviceError` models a bare
`AnalyticsServiceError`. -/
inductive AnalyticsError where
  | invalidMetric (metricName : String) (supported : List String)
  | insufficientData (msg : String)
  | serviceError (msg : String)
  | valueError (msg : String)
  deriving DecidableEq, Repr

/-- The `Measurement` dataclass of `src/core/domain/measurement.py`
(fields exactly as declared there: note the source declares *no*
`sensor_id` field, although the influx repository and the service access
one). -/
structure Measurement where
  controller_id : String
  timestamp : ℤ
  soil_humidity : Option ℚ := none
  air_humidity : Option ℚ := none
  temperature : Option ℚ := none
  light_intensity : Option ℚ := none
  deriving DecidableEq, Repr

/-- A range check of `__post_init__`: present and outside `[lo, hi]`. -/
def fieldOutOfRange (field : Option ℚ) (lo hi : ℚ) : Bool :=
  match field with
  | some x => ¬ (lo ≤ x ∧ x ≤ hi)
  | none => false

/-- The `light_intensity < 0` check of `__post_init__`. -/
def fieldNegative (field : Option ℚ) : Bool :=
  match field with
  | some x => x < 0
  | none => false

@[simp] theorem fieldOutOfRange_iff (field : Option ℚ) (lo hi : ℚ) :
    fieldOutOfRange field lo hi = true ↔ ∃ x ∈ field, ¬ (lo ≤ x ∧ x ≤ hi) := by
  cases field
  · simp [fieldOutOfRange]
  · simp [fieldOutOfRange]
    rw [or_iff_not_imp_left]
    simp [not_lt]

@[simp] theorem fieldNegative_iff (field : Option ℚ) :
    fieldNegative field = true ↔ ∃ x ∈ field, x < 0 := by
  cases field <;> simp [fieldNegative]

/-- `Measurement.__post_init__`: the validation run on every attempted
construction (checks in source order, first violated check raises).
Returns the constructed measurement, or the `ValueError` message raised. -/
def mkMeasurement (controller_id : String) (timestamp : ℤ)
    (soil_humidity air_humidity temperature light_intensity : Option ℚ) :
    Except AnalyticsError Measurement :=
  if controller_id = "" then
    .error (.valueError "controller_id is required")
  else if fieldOutOfRange soil_humidity 0 1 then
    .error (.valueError "soil_humidity must be between 0 and 1")
  else if fieldOutOfRange air_humidity 0 100 then
    .error (.valueError "air_humidity must be between 0 and 100")
  else if fieldOutOfRange temperature (-50) 60 then
    .error (.valueError "temperature must be between -50 and 60 degrees Celsius")
  else if fieldNegative light_intensity then
    .error (.valueError "light_intensity must be non-negative")
  else
    .ok ⟨controller_id, timestamp, soil_humidity, air_humidity, temperature, light_intensity⟩

/-- The range invariants of a validated `Measurement` (what
`__post_init__` accepts). -/
def validMeasurement (m : Measurement) : Prop :=
  m.controller_id ≠ "" ∧
  (∀ sh ∈ m.soil_humidity, 0 ≤ sh ∧ sh ≤ 1) ∧
  (∀ ah ∈ m.air_humidity, 0 ≤ ah ∧ ah ≤ 100) ∧
  (∀ t ∈ m.temperature, -50 ≤ t ∧ t ≤ 60) ∧
  (∀ li ∈ m.light_intensity, 0 ≤ li)

instance (m : Measurement) : Decidable (validMeasurement m) := by
  unfold validMeasurement; infer_instance

/-- `AnalyticsServiceImpl.SUPPORTED_METRICS` (a dict mapping metric name to
the `Measurement` attribute of the same name). -/
def SUPPORTED_METRICS : List (String × String) :=
  [("temperature", "temperature"),
   ("air_humidity", "air_humidity"),
   ("soil_humidity", "soil_humidity"),
   ("light_intensity", "light_intensity")]

/-- `AnalyticsServiceImpl.is_metric_supported`. -/
def isMetricSupported (metricName : String) : Bool :=
  (SUPPORTED_METRICS.map Prod.fst).contains metricName

/-- `AnalyticsServiceImpl.get_supported_metrics`. -/
def getSupportedMetrics : List String := SUPPORTED_METRICS.map Prod.fst

/-- `getattr(measurement, attribute, None)` for the four sensor attributes
(used by `query_historical_data` / `query_historical_averages` with
attribute names drawn from `SUPPORTED_METRICS`). -/
def Measurement.getField (m : Measurement) (attr : String) : Option ℚ :=
  if attr = "temperature" then m.temperature
  else if attr = "air_humidity" then m.air_humidity
  else if attr = "soil_humidity" then m.soil_humidity
  else if attr = "light_intensity" then m.light_intensity
  else none

/-- Attribute looked up in the `SUPPORTED_METRICS` dict
(`self.SUPPORTED_METRICS[metric_name]`; callers only use supported names). -/
def supportedAttr (metricName : String) : String :=
  ((SUPPORTED_METRICS.find? (fun p => p.1 = metricName)).map Prod.snd).getD ""

/-! ### Calculation library (`analytics_calculations.py`) -/

/-- Result shape of `AnalyticsCalculations.calculate_basic_statistics`. -/
structure BasicStats where
  mean : ℚ
  min : ℚ
  max : ℚ
  std_dev : ℝ
  count : ℕ

/-- `AnalyticsCalculations.calculate_basic_statistics`. -/
noncomputable def calculateBasicStatistics (values : List ℚ) : BasicStats :=
  match values with
  | [] => ⟨0, 0, 0, 0, 0⟩
  | v :: vs =>
      let count := (v :: vs).length
      let mean := (v :: vs).sum / (count : ℚ)
      let minVal := vs.foldl Min.min v
      let maxVal := vs.foldl Max.max v
      let stdDev : ℝ :=
        if 1 < count then
          Real.sqrt ↑(((v :: vs).map (fun x => (x - mean) ^ 2)).sum / ((count : ℚ) - 1))
        else 0
      ⟨mean, minVal, maxVal, stdDev, count⟩

/-- `AnalyticsCalculations.calculate_growing_degree_days`. -/
def calculateGrowingDegreeDays (measurements : List Measurement) (t_base : ℚ) : ℚ :=
  if measurements = [] then 0
  else
    match measurements.filter (fun m => m.temperature.isSome) with
    | [] => 0
    | tm :: tms =>
        match (tm :: tms).filterMap (fun m => m.temperature) with
        | [] => 0  -- unreachable: `tm` carries a temperature
        | t :: ts =>
            let t_max := ts.foldl Max.max t
            let t_min := ts.foldl Min.min t
            max 0 ((t_max + t_min) / 2 - t_base)

/-- `AnalyticsCalculations.calculate_dew_point` (Magnus approximation;
raises `ValueError` unless `0 < humidity ≤ 100`). -/
noncomputable def calculateDewPoint (temperature humidity : ℚ) :
    Except AnalyticsError ℝ :=
  if humidity ≤ 0 ∨ 100 < humidity then
    .error (.valueError "Humidity must be between 0 and 100")
  else
    let a : ℝ := 17.62
    let b : ℝ := 243.12
    let alpha := Real.log ((humidity : ℝ) / 100) + a * ↑temperature / (b + ↑temperature)
    .ok (b * alpha / (a - alpha))

/-- `AnalyticsCalculations.calculate_daily_light_integral`
(raises `ValueError` on a negative reading). -/
def calculateDailyLightIntegral (average_light_reading : ℚ) :
    Except AnalyticsError ℚ :=
  if average_light_reading < 0 then
    .error (.valueError "Light reading cannot be negative")
  else .ok (average_light_reading * (3600 * 24) / 1000000)

/-- `AnalyticsCalculations.calculate_saturated_vapor_pressure`. -/
noncomputable def calculateSaturatedVaporPressure (temperature : ℝ) : ℝ :=
  0.6108 * Real.exp (17.27 * temperature / (temperature + 237.3))

/-- `AnalyticsCalculations.calculate_actual_vapor_pressure`. -/
noncomputable def calculateActualVaporPressure (temperature humidity : ℝ) : ℝ :=
  humidity / 100 * calculateSaturatedVaporPressure temperature

/-- `AnalyticsCalculations.calculate_vapor_pressure_deficit`
(`max(0.0, svp - avp)`). -/
noncomputable def calculateVaporPressureDeficit (temperature humidity : ℝ) : ℝ :=
  max 0 (calculateSaturatedVaporPressure temperature -
    calculateActualVaporPressure temperature humidity)

/-- Result dict of `AnalyticsCalculations.calculate_trend_metrics`. -/
structure TrendData where
  start_value : ℚ
  end_value : ℚ
  change : ℚ
  percent_change : ℚ
  slope_per_hour : ℚ
  duration_hours : ℚ
  data_points : ℕ
  deriving DecidableEq, Repr

/-- `AnalyticsCalculations.calculate_trend_metrics`: `None` for fewer than
two points, else change / percent change / slope over the first and last
entries (`time_series[0]`, `time_series[-1]`). -/
def calculateTrendMetrics (time_series : List (ℤ × Option ℚ)) : Option TrendData :=
  match time_series with
  | p0 :: p1 :: rest =>
      let pEnd := (p1 :: rest).getLast (List.cons_ne_nil p1 rest)
      match p0.2, pEnd.2 with
      | some start_value, some end_value =>
          let change := end_value - start_value
          let percent_change := if start_value ≠ 0 then change / start_value * 100 else 0
          let duration_hours := max (((pEnd.1 - p0.1 : ℤ) : ℚ) / 3600) 0
          let slope_per_hour := if 0 < duration_hours then change / duration_hours else 0
          some ⟨start_value, end_value, change, percent_change, slope_per_hour,
            duration_hours, (p0 :: p1 :: rest).length⟩
      | _, _ => none
  | _ => none

/-! ### Report generation (`analytics_service_impl.py`) -/

/-- `MetricResult` (`src/core/domain/analytics.py`); its wall-clock
`timestamp` field is omitted. -/
structure MetricResult where
  metric_name : String
  value : ℝ
  unit : String
  controller_id : String
  description : Option String := none

/-- `AnalyticsFilter` (`src/core/domain/analytics.py`). -/
structure AnalyticsFilter where
  start_time : Option ℤ := none
  end_time : Option ℤ := none
  limit : Option ℕ := none
  deriving DecidableEq, Repr

/-- `AnalyticsReport` (`src/core/domain/analytics.py`); `generated_at`
omitted. -/
structure AnalyticsReport where
  controller_id : String
  metrics : List MetricResult
  data_points_count : ℕ
  filters_applied : AnalyticsFilter

/-- `AnalyticsServiceImpl._extract_time_series`: the `(timestamp, value)`
pairs for one controller and attribute, sorted ascending by timestamp
(Python `list.sort` is stable; `insertionSort` with `≤` is too). -/
def extractTimeSeries (measurements : List Measurement) (controller_id : String)
    (attr : String) : List (ℤ × Option ℚ) :=
  let series := (measurements.filter
      (fun m => m.controller_id = controller_id && (m.getField attr).isSome)).map
    (fun m => (m.timestamp, m.getField attr))
  series.insertionSort (fun a b => a.1 ≤ b.1)

/-- `AnalyticsServiceImpl._build_trend_metric_results`. -/
noncomputable def buildTrendMetricResults (metric_stem controller_id : String)
    (trend_data : Option TrendData) (value_unit : String)
    (slope_unit : Option String) : List MetricResult :=
  match trend_data with
  | none => []
  | some td =>
      let slope_unit :=
        match slope_unit with
        | some s => if s = "" then (if value_unit = "" then "unit/h" else value_unit ++ "/h") else s
        | none => if value_unit = "" then "unit/h" else value_unit ++ "/h"
      [⟨metric_stem ++ "_trend_change", ↑td.change, value_unit, controller_id,
          some "Absolute change during the analyzed period"⟩,
       ⟨metric_stem ++ "_trend_percent", ↑td.percent_change, "%", controller_id,
          some "Percentage change relative to first data point"⟩,
       ⟨metric_stem ++ "_trend_slope", ↑td.slope_per_hour, slope_unit, controller_id,
          some "Average change per hour"⟩]

/-- The `humid_measurements` overlap list of
`_calculate_temperature_metrics`: measurements carrying both an air
humidity and a temperature. -/
def humidOverlap (measurements : List Measurement) : List Measurement :=
  measurements.filter (fun m => m.air_humidity.isSome && m.temperature.isSome)

/-- The mean air humidity over the overlap list
(`sum(...) / len(humid_measurements)`). -/
def avgOverlapHumidity (measurements : List Measurement) : ℚ :=
  ((humidOverlap measurements).filterMap (fun m => m.air_humidity)).sum /
    ((humidOverlap measurements).length : ℚ)

/-- The mean temperature over the overlap list. -/
def avgOverlapTemperature (measurements : List Measurement) : ℚ :=
  ((humidOverlap measurements).filterMap (fun m => m.temperature)).sum /
    ((humidOverlap measurements).length : ℚ)

/-- The dew-point/VPD block of `_calculate_temperature_metrics`: empty when
no measurement carries both fields, otherwise dew point (which may raise)
and vapor-pressure deficit from the overlap means. -/
noncomputable def dewVpdResults (measurements : List Measurement)
    (controller_id : String) : Except AnalyticsError (List MetricResult) :=
  if humidOverlap measurements = [] then .ok []
  else
    match calculateDewPoint (avgOverlapTemperature measurements)
        (avgOverlapHumidity measurements) with
    | .error e => .error e
    | .ok dew_point =>
        let vpd := calculateVaporPressureDeficit ↑(avgOverlapTemperature measurements)
          ↑(avgOverlapHumidity measurements)
        .ok [⟨"dew_point", dew_point, "°C", controller_id,
               some "Temperature at which water vapor condenses"⟩,
             ⟨"vapor_pressure_deficit", vpd, "kPa", controller_id,
               some "Plant transpiration indicator"⟩]

/-- `AnalyticsServiceImpl._calculate_temperature_metrics`. -/
noncomputable def calculateTemperatureMetrics (measurements : List Measurement)
    (controller_id : String) : Except AnalyticsError (List MetricResult) :=
  let temp_measurements := measurements.filter (fun m => m.temperature.isSome)
  if temp_measurements = [] then .ok []
  else
    let temperatures := temp_measurements.filterMap (fun m => m.temperature)
    let stats := calculateBasicStatistics temperatures
    let base : List MetricResult :=
      [⟨"temperature_average", ↑stats.mean, "°C", controller_id, none⟩,
       ⟨"temperature_minimum", ↑stats.min, "°C", controller_id, none⟩,
       ⟨"temperature_maximum", ↑stats.max, "°C", controller_id, none⟩,
       ⟨"temperature_std_deviation", stats.std_dev, "°C", controller_id, none⟩]
    let gdd := calculateGrowingDegreeDays temp_measurements 10
    let gddResult : MetricResult :=
      ⟨"growing_degree_days", ↑gdd, "GDD", controller_id,
        some "Predicts plant development stages"⟩
    match dewVpdResults measurements controller_id with
    | .error e => .error e
    | .ok dewVpd =>
        let temperature_series := extractTimeSeries measurements controller_id "temperature"
        let temperature_trend := calculateTrendMetrics temperature_series
        .ok (base ++ [gddResult] ++ dewVpd ++
          buildTrendMetricResults "temperature" controller_id temperature_trend "°C" (some "°C/h"))

/-- `AnalyticsServiceImpl._calculate_humidity_air_metrics`. -/
noncomputable def calculateHumidityAirMetrics (measurements : List Measurement)
    (controller_id : String) : Except AnalyticsError (List MetricResult) :=
  let humid_measurements := measurements.filter (fun m => m.air_humidity.isSome)
  if humid_measurements = [] then .ok []
  else
    let humidities := humid_measurements.filterMap (fun m => m.air_humidity)
    let stats := calculateBasicStatistics humidities
    let base : List MetricResult :=
      [⟨"air_humidity_average", ↑stats.mean, "%", controller_id, none⟩,
       ⟨"air_humidity_minimum", ↑stats.min, "%", controller_id, none⟩,
       ⟨"air_humidity_maximum", ↑stats.max, "%", controller_id, none⟩,
       ⟨"air_humidity_std_deviation", stats.std_dev, "%", controller_id, none⟩]
    let humidity_air_trend := calculateTrendMetrics
      (extractTimeSeries measurements controller_id "air_humidity")
    .ok (base ++
      buildTrendMetricResults "air_humidity" controller_id humidity_air_trend "%" (some "%/h"))

/-- `AnalyticsServiceImpl._calculate_humidity_soil_metrics`. -/
noncomputable def calculateHumiditySoilMetrics (measurements : List Measurement)
    (controller_id : String) : Except AnalyticsError (List MetricResult) :=
  let soil_measurements := measurements.filter (fun m => m.soil_humidity.isSome)
  if soil_measurements = [] then .ok []
  else
    let soil_humidities := soil_measurements.filterMap (fun m => m.soil_humidity)
    let stats := calculateBasicStatistics soil_humidities
    let base : List MetricResult :=
      [⟨"soil_humidity_average", ↑stats.mean, "", controller_id, none⟩,
       ⟨"soil_humidity_minimum", ↑stats.min, "", controller_id, none⟩,
       ⟨"soil_humidity_maximum", ↑stats.max, "", controller_id, none⟩,
       ⟨"soil_humidity_std_deviation", stats.std_dev, "", controller_id, none⟩]
    let soil_trend := calculateTrendMetrics
      (extractTimeSeries measurements controller_id "soil_humidity")
    .ok (base ++
      buildTrendMetricResults "soil_humidity" controller_id soil_trend "" (some "fraction/h"))

/-- `AnalyticsServiceImpl._calculate_light_metrics`. -/
noncomputable def calculateLightMetrics (measurements : List Measurement)
    (controller_id : String) : Except AnalyticsError (List MetricResult) :=
  let light_measurements := measurements.filter (fun m => m.light_intensity.isSome)
  if light_measurements = [] then .ok []
  else
    let light_values := light_measurements.filterMap (fun m => m.light_intensity)
    let stats := calculateBasicStatistics light_values
    let base : List MetricResult :=
      [⟨"light_intensity_average", ↑stats.mean, "lux", controller_id, none⟩,
       ⟨"light_intensity_minimum", ↑stats.min, "lux", controller_id, none⟩,
       ⟨"light_intensity_maximum", ↑stats.max, "lux", controller_id, none⟩,
       ⟨"light_intensity_std_deviation", stats.std_dev, "lux", controller_id, none⟩]
    match calculateDailyLightIntegral stats.mean with
    | .error e => .error e
    | .ok dli =>
        let dliResult : MetricResult :=
          ⟨"daily_light_integral", ↑dli, "mol/m²/day", controller_id,
            some "Total photosynthetic radiation per day"⟩
        let light_trend := calculateTrendMetrics
          (extractTimeSeries measurements controller_id "light_intensity")
        .ok (base ++ [dliResult] ++
          buildTrendMetricResults "light_intensity" controller_id light_trend "lux" (some "lux/h"))

/-- `AnalyticsServiceImpl._calculate_metrics_for_sensor`. -/
noncomputable def calcMetricsForSensor (metric_name : String)
    (measurements : List Measurement) (controller_id : String) :
    Except AnalyticsError (List MetricResult) :=
  if metric_name = "temperature" then
    calculateTemperatureMetrics measurements controller_id
  else if metric_name = "air_humidity" then
    calculateHumidityAirMetrics measurements controller_id
  else if metric_name = "soil_humidity" then
    calculateHumiditySoilMetrics measurements controller_id
  else if metric_name = "light_intensity" then
    calculateLightMetrics measurements controller_id
  else .ok []

/-- `generate_single_metric_report` followed by
`_generate_single_metric_report_impl` (without the cache layer, which only
short-circuits recomputation), applied to the measurement list the
repository returned. -/
noncomputable def singleMetricReportImpl (metric_name controller_id : String)
    (filters : AnalyticsFilter) (measurements : List Measurement) :
    Except AnalyticsError AnalyticsReport :=
  if ¬ isMetricSupported metric_name then
    .error (.invalidMetric metric_name getSupportedMetrics)
  else if measurements = [] then
    .error (.insufficientData ("No data found for controller " ++ controller_id))
  else
    match calcMetricsForSensor metric_name measurements controller_id with
    | .error e => .error e
    | .ok metric_results =>
        if metric_results.isEmpty then
          .error (.insufficientData
            ("No " ++ metric_name ++ " data available for controller " ++ controller_id))
        else .ok ⟨controller_id, metric_results, measurements.length, filters⟩

/-- `MultiReportRequest` (`src/core/domain/analytics.py`). -/
structure MultiReportRequest where
  controllers : List String
  metrics : List String
  filters : AnalyticsFilter

/-- `MultiReportResponse` (`src/core/domain/analytics.py`): the `reports`
dict is modelled as an association list in insertion order; `generated_at`
omitted. -/
structure MultiReportResponse where
  reports : List (String × AnalyticsReport)
  total_controllers : ℕ
  total_metrics : ℕ

/-- Python dict assignment `d[key] = val`: replace in place or append. -/
def dictSet {α β : Type _} [DecidableEq α] (key : α) (val : β) :
    List (α × β) → List (α × β)
  | [] => [(key, val)]
  | (k, v) :: rest =>
      if k = key then (k, val) :: rest else (k, v) :: dictSet key val rest

/-- The inner metric loop of `_generate_multi_report_impl`: concatenate the
per-metric bundles of the supported requested metrics. -/
noncomputable def allMetricsFor (metrics : List String)
    (measurements : List Measurement) (controller_id : String) :
    Except AnalyticsError (List MetricResult) :=
  match metrics with
  | [] => .ok []
  | metric_name :: rest =>
      if isMetricSupported metric_name then
        match calcMetricsForSensor metric_name measurements controller_id with
        | .error e => .error e
        | .ok metric_results =>
            match allMetricsFor rest measurements controller_id with
            | .error e => .error e
            | .ok more => .ok (metric_results ++ more)
      else allMetricsFor rest measurements controller_id

/-- The body of the per-controller `try` block of
`_generate_multi_report_impl`: `none` when the fetch returned no
measurements (no report, no exception). -/
noncomputable def controllerOutcome
    (fetch : String → Except AnalyticsError (List Measurement))
    (request : MultiReportRequest) (controller_id : String) :
    Except AnalyticsError (Option AnalyticsReport) :=
  match fetch controller_id with
  | .error e => .error e
  | .ok measurements =>
      if measurements = [] then .ok none
      else
        match allMetricsFor request.metrics measurements controller_id with
        | .error e => .error e
        | .ok all_metrics =>
            if all_metrics.isEmpty then
              .error (.insufficientData
                ("No data available for requested metrics in controller " ++ controller_id))
            else .ok (some ⟨controller_id, all_metrics, measurements.length, request.filters⟩)

/-- `generate_multi_report` / `_generate_multi_report_impl` (without the
cache layer): any per-controller error is caught and the controller
skipped; totals are the requested counts. -/
noncomputable def multiReportImpl
    (fetch : String → Except AnalyticsError (List Measurement))
    (request : MultiReportRequest) : MultiReportResponse :=
  let reports := request.controllers.foldl
    (fun reports controller_id =>
      match controllerOutcome fetch request controller_id with
      | .ok (some report) => dictSet controller_id report reports
      | .ok none => reports
      | .error _ => reports)
    []
  ⟨reports, request.controllers.length, request.metrics.length⟩

/-! ### Historical averages (`query_historical_averages`) -/

/-- Modelled from the spec: `HistoricalQueryFilter` is imported by the
service from `src/core/domain/analytics.py` but its declaration is missing
from that file; its fields are fixed by the spec's data model and by every
constructor call in the service (`start_time`, `end_time`, `limit`,
`controller_id`, `sensor_id`, `parameter`, all optional). -/
structure HistoricalQueryFilter where
  start_time : Option ℤ := none
  end_time : Option ℤ := none
  limit : Option ℕ := none
  controller_id : Option String := none
  sensor_id : Option String := none
  parameter : Option String := none
  deriving DecidableEq, Repr

/-- Modelled from the spec: `HistoricalAverageDataPoint` — declaration
missing from `src/core/domain/analytics.py`; fields fixed by the spec
(`interval_start` inclusive, `interval_end` exclusive, `controller_id`,
`parameter`, `average_value`, `measurements_count`) and by the service's
constructor call. -/
structure HistoricalAverageDataPoint where
  interval_start : ℤ
  interval_end : ℤ
  controller_id : String
  parameter : String
  average_value : ℚ
  measurements_count : ℕ
  deriving DecidableEq, Repr

/-- Modelled from the spec: `HistoricalAveragesResponse` — declaration
missing from `src/core/domain/analytics.py`; ordered data points plus
`total_points`, `interval_minutes` and the echoed filters (`generated_at`
omitted). -/
structure HistoricalAveragesResponse where
  data_points : List HistoricalAverageDataPoint
  total_points : ℕ
  interval_minutes : ℤ
  filters_applied : HistoricalQueryFilter
  deriving DecidableEq, Repr

/-- `AnalyticsServiceImpl.ALLOWED_AVERAGE_INTERVALS`: minutes mapped to the
`timedelta` size in seconds. -/
def ALLOWED_AVERAGE_INTERVALS : List (ℤ × ℤ) :=
  [(15, 900), (30, 1800), (60, 3600), (120, 7200), (360, 21600), (720, 43200)]

/-- `AnalyticsServiceImpl._floor_to_interval`: epoch-anchored flooring,
`epoch + (elapsed // interval) * interval` (Python `//` on timedeltas is
floor division, i.e. `Int.fdiv` on the second counts). -/
def floorToInterval (timestamp interval : ℤ) : ℤ :=
  (Int.fdiv timestamp interval) * interval

/-- `AnalyticsServiceImpl._ceil_to_interval`. -/
def ceilToInterval (timestamp interval : ℤ) : ℤ :=
  let floored := floorToInterval timestamp interval
  if floored = timestamp then timestamp else floored + interval

/-- `min(m.timestamp for m in measurements)` (callers guarantee a nonempty
list; the `[]` case is junk). -/
def minTimestamp : List Measurement → ℤ
  | [] => 0
  | m :: rest => rest.foldl (fun acc x => min acc x.timestamp) m.timestamp

/-- `max(m.timestamp for m in measurements)` (callers guarantee a nonempty
list; the `[]` case is junk). -/
def maxTimestamp : List Measurement → ℤ
  | [] => 0
  | m :: rest => rest.foldl (fun acc x => max acc x.timestamp) m.timestamp

/-- `start_reference = filters.start_time or min(...)`. -/
def startReference (filters : HistoricalQueryFilter)
    (measurements : List Measurement) : ℤ :=
  filters.start_time.getD (minTimestamp measurements)

/-- `end_reference = filters.end_time or max(...)`. -/
def endReference (filters : HistoricalQueryFilter)
    (measurements : List Measurement) : ℤ :=
  filters.end_time.getD (maxTimestamp measurements)

/-- `start_aligned = self._floor_to_interval(start_reference, interval_delta)`. -/
def startAlignedOf (filters : HistoricalQueryFilter) (interval_delta : ℤ)
    (measurements : List Measurement) : ℤ :=
  floorToInterval (startReference filters measurements) interval_delta

/-- `end_aligned = self._ceil_to_interval(end_reference, interval_delta)`,
bumped by one interval when it coincides with `start_aligned`. -/
def endAlignedOf (filters : HistoricalQueryFilter) (interval_delta : ℤ)
    (measurements : List Measurement) : ℤ :=
  let start_aligned := startAlignedOf filters interval_delta measurements
  let end_aligned := ceilToInterval (endReference filters measurements) interval_delta
  if start_aligned = end_aligned then start_aligned + interval_delta else end_aligned

/-- `parameter_filter`: the validated parameter, with Python truthiness
(an empty-string parameter counts as absent). -/
def parameterFilter (filters : HistoricalQueryFilter) : Option String :=
  match filters.parameter with
  | some p => if p = "" then none else some p
  | none => none

/-- `candidate_metrics = [parameter_filter] if parameter_filter else
list(self.SUPPORTED_METRICS.keys())`. -/
def candidateMetrics (filters : HistoricalQueryFilter) : List String :=
  match parameterFilter filters with
  | some p => [p]
  | none => getSupportedMetrics

/-- One bucket accumulator entry: key `(controller_id, metric_name,
interval_start)` with its running `sum` and `count`. -/
abbrev BucketAcc := List ((String × String × ℤ) × ℚ × ℕ)

/-- `bucket = bucket_totals.setdefault(key, {"sum": 0.0, "count": 0})`
followed by `bucket["sum"] += value; bucket["count"] += 1`: dicts keep
insertion order, so an absent key is appended at the end. -/
def bumpBucket (key : String × String × ℤ) (value : ℚ) : BucketAcc → BucketAcc
  | [] => [(key, value, 1)]
  | (k, s, c) :: rest =>
      if k = key then (k, s + value, c + 1) :: rest
      else (k, s, c) :: bumpBucket key value rest

/-- The window test of the accumulation loop: skip measurements strictly
before `filters.start_time` or strictly after `filters.end_time`. -/
def inWindow (filters : HistoricalQueryFilter) (m : Measurement) : Bool :=
  !(match filters.start_time with
    | some s => decide (m.timestamp < s)
    | none => false) &&
  !(match filters.end_time with
    | some e => decide (e < m.timestamp)
    | none => false)

/-- The body of the inner candidate-metric loop of
`query_historical_averages` for one measurement and one metric name: clamp
the floored timestamp up to `start_aligned`, drop it at or beyond
`end_aligned`, and bump the bucket keyed by
`(controller_id, metric_name, interval_start)`. -/
def metricStep (interval_delta start_aligned end_aligned : ℤ) (m : Measurement)
    (acc : BucketAcc) (metric_name : String) : BucketAcc :=
  match m.getField (supportedAttr metric_name) with
  | none => acc
  | some value =>
      let interval_start := floorToInterval m.timestamp interval_delta
      let interval_start :=
        if interval_start < start_aligned then start_aligned else interval_start
      if end_aligned ≤ interval_start then acc
      else bumpBucket (m.controller_id, metric_name, interval_start) value acc

/-- The body of the accumulation loop of `query_historical_averages` for a
single measurement: one `metricStep` per candidate metric, skipped when the
measurement falls outside the filter window. -/
def bucketStep (filters : HistoricalQueryFilter)
    (interval_delta start_aligned end_aligned : ℤ) (candidates : List String)
    (acc : BucketAcc) (m : Measurement) : BucketAcc :=
  if inWindow filters m then
    candidates.foldl (metricStep interval_delta start_aligned end_aligned m) acc
  else acc

/-- The output ordering `(interval_start, controller_id, parameter)`
(Python tuple comparison is lexicographic). -/
def dpLe (a b : HistoricalAverageDataPoint) : Prop :=
  a.interval_start < b.interval_start ∨
    (a.interval_start = b.interval_start ∧
      (a.controller_id < b.controller_id ∨
        (a.controller_id = b.controller_id ∧ a.parameter ≤ b.parameter)))

instance : DecidableRel dpLe := by
  unfold dpLe; infer_instance

/-- The main body of `query_historical_averages` (after interval and
parameter validation): echoed filters, early return on an empty fetch,
bucket accumulation, averaging and sorting. -/
def queryHistoricalAveragesBody (filters : HistoricalQueryFilter)
    (average_interval : ℤ) (ip : ℤ × ℤ) (measurements : List Measurement) :
    Except AnalyticsError HistoricalAveragesResponse :=
  let response_filters : HistoricalQueryFilter :=
    ⟨filters.start_time, filters.end_time, filters.limit,
      filters.controller_id, filters.sensor_id, filters.parameter⟩
  if measurements = [] then
    .ok ⟨[], 0, average_interval, response_filters⟩
  else
    let interval_delta := ip.2
    let start_aligned := startAlignedOf filters interval_delta measurements
    let end_aligned := endAlignedOf filters interval_delta measurements
    let bucket_totals := measurements.foldl
      (bucketStep filters interval_delta start_aligned end_aligned
        (candidateMetrics filters)) []
    let data_points : List HistoricalAverageDataPoint :=
      bucket_totals.filterMap
        (fun e =>
          if e.2.2 = 0 then none
          else some ⟨e.1.2.2, e.1.2.2 + interval_delta, e.1.1, e.1.2.1,
            e.2.1 / (e.2.2 : ℚ), e.2.2⟩)
    let sorted := data_points.insertionSort dpLe
    .ok ⟨sorted, sorted.length, average_interval, response_filters⟩

/-- `AnalyticsServiceImpl.query_historical_averages`, applied to the
measurement list the repository returned. -/
def queryHistoricalAverages (filters : HistoricalQueryFilter)
    (average_interval : ℤ) (measurements : List Measurement) :
    Except AnalyticsError HistoricalAveragesResponse :=
  match ALLOWED_AVERAGE_INTERVALS.find? (fun p => p.1 = average_interval) with
  | none =>
      .error (.serviceError
        ("Unsupported average interval: " ++ toString average_interval ++ " minutes"))
  | some ip =>
      let rest : Except AnalyticsError HistoricalAveragesResponse :=
        queryHistoricalAveragesBody filters average_interval ip measurements
      match parameterFilter filters with
      | some p =>
          if ¬ isMetricSupported p then .error (.invalidMetric p getSupportedMetrics)
          else rest
      | none => rest

/-! ### Claim theorems -/

/-- **C1.** Supporting theorem for the `Measurement` validation invariant:
an attempted construction fails with a `ValueError` iff `controller_id` is
empty or some present optional field is out of its range (the `sensor_id`
part of the claim is settled outside this theorem: the source dataclass
declares no such field while its own callers and tests pass one). -/
theorem C1_measurement_validation_iff (cid : String) (ts : ℤ)
    (sh ah t li : Option ℚ) :
    (∃ msg, mkMeasurement cid ts sh ah t li = .error (.valueError msg)) ↔
      (cid = "" ∨ (∃ x ∈ sh, ¬ (0 ≤ x ∧ x ≤ 1)) ∨ (∃ x ∈ ah, ¬ (0 ≤ x ∧ x ≤ 100)) ∨
        (∃ x ∈ t, ¬ (-50 ≤ x ∧ x ≤ 60)) ∨ (∃ x ∈ li, x < 0)) := by
  unfold mkMeasurement
  split_ifs with h1 h2 h3 h4 h5 <;> simp_all

/-- **C6.** An `average_interval` outside {15, 30, 60, 120, 360, 720} makes
`query_historical_averages` fail with the `AnalyticsServiceError` for every
possible repository answer (so in particular before/without consulting the
repository). -/
theorem C6_invalid_interval_rejected (i : ℤ)
    (h : i ∉ ([15, 30, 60, 120, 360, 720] : List ℤ))
    (filters : HistoricalQueryFilter) (measurements : List Measurement) :
    queryHistoricalAverages filters i measurements =
      .error (.serviceError
        ("Unsupported average interval: " ++ toString i ++ " minutes")) := by
  unfold queryHistoricalAverages
  have hfind : ALLOWED_AVERAGE_INTERVALS.find? (fun p => p.1 = i) = none := by
    rw [List.find?_eq_none]
    intro p hp
    simp only [ALLOWED_AVERAGE_INTERVALS, List.mem_cons, List.not_mem_nil, or_false] at hp
    simp only [List.mem_cons, List.not_mem_nil] at h
    rcases hp with rfl | rfl | rfl | rfl | rfl | rfl <;> simpa using fun hh => h (by simp [hh])
  rw [hfind]

/-- **C6 witness**: interval 7 is rejected. -/
theorem C6_invalid_interval_rejected_witness :
    (7 : ℤ) ∉ ([15, 30, 60, 120, 360, 720] : List ℤ) ∧
    queryHistoricalAverages {} 7 [] =
      .error (.serviceError "Unsupported average interval: 7 minutes") :=
  ⟨by decide, C6_invalid_interval_rejected 7 (by decide) {} []⟩

/-- **C8.** For `0 < RH ≤ 100`: `AVP(T,RH) ≤ SVP(T)`, `0 ≤ AVP(T,RH)`, and
hence `0 ≤ VPD(T,RH)`. -/
theorem C8_vpd_nonneg (T RH : ℝ) (h0 : 0 < RH) (h100 : RH ≤ 100) :
    calculateActualVaporPressure T RH ≤ calculateSaturatedVaporPressure T ∧
    0 ≤ calculateActualVaporPressure T RH ∧
    0 ≤ calculateVaporPressureDeficit T RH := by
  have hsvp : 0 < calculateSaturatedVaporPressure T := by
    unfold calculateSaturatedVaporPressure
    positivity
  refine ⟨?_, ?_, le_max_left 0 _⟩
  · unfold calculateActualVaporPressure
    nlinarith [hsvp]
  · unfold calculateActualVaporPressure
    positivity

/-- **C8 witness**: at `T = 25`, `RH = 50`. -/
theorem C8_vpd_nonneg_witness :
    ((0 : ℝ) < 50 ∧ (50 : ℝ) ≤ 100) ∧
    (calculateActualVaporPressure 25 50 ≤ calculateSaturatedVaporPressure 25 ∧
     0 ≤ calculateActualVaporPressure 25 50 ∧
     0 ≤ calculateVaporPressureDeficit 25 50) :=
  ⟨⟨by norm_num, by norm_num⟩, C8_vpd_nonneg 25 50 (by norm_num) (by norm_num)⟩

/-- **C10 counterexample.** With a valid interval but an unsupported
`parameter` filter, `query_historical_averages` on an empty fetch does not
return a response at all: it raises `InvalidMetricError`. -/
theorem C10_counterexample_invalid_parameter :
    queryHistoricalAverages ⟨none, none, none, none, none, some "pressure"⟩ 15 [] =
      .error (.invalidMetric "pressure" getSupportedMetrics) ∧
    ∀ resp, queryHistoricalAverages ⟨none, none, none, none, none, some "pressure"⟩ 15 [] ≠
      .ok resp := by
  refine ⟨rfl, fun resp h => ?_⟩
  rw [show queryHistoricalAverages ⟨none, none, none, none, none, some "pressure"⟩ 15 [] =
      .error (.invalidMetric "pressure" getSupportedMetrics) from rfl] at h
  exact Except.noConfusion h

/-- **C10 (amended).** When the repository returns zero measurements and
both the interval and the (possibly absent) parameter filter are valid,
`query_historical_averages` returns a plain response: empty `data_points`,
`total_points = 0`, the requested `interval_minutes`, and the filters
echoed. -/
theorem C10_empty_fetch_response (filters : HistoricalQueryFilter) (i : ℤ)
    (hi : i ∈ ([15, 30, 60, 120, 360, 720] : List ℤ))
    (hp : ∀ p ∈ parameterFilter filters, isMetricSupported p) :
    queryHistoricalAverages filters i [] = .ok ⟨[], 0, i, filters⟩ := by
  obtain ⟨d, hfind⟩ :
      ∃ d, ALLOWED_AVERAGE_INTERVALS.find? (fun p => p.1 = i) = some (i, d) := by
    fin_cases hi <;> exact ⟨_, rfl⟩
  unfold queryHistoricalAverages
  rw [hfind]
  cases hpf : parameterFilter filters with
  | none => simp [hpf, queryHistoricalAveragesBody]
  | some p => simp [hpf, hp p (by simp [hpf]), queryHistoricalAveragesBody]

/-- **C10 witness**: empty fetch, interval 15, no parameter filter. -/
theorem C10_empty_fetch_response_witness :
    ((15 : ℤ) ∈ ([15, 30, 60, 120, 360, 720] : List ℤ) ∧
      ∀ p ∈ parameterFilter {}, isMetricSupported p) ∧
    queryHistoricalAverages {} 15 [] = .ok ⟨[], 0, 15, {}⟩ :=
  ⟨⟨by decide, by decide⟩, C10_empty_fetch_response {} 15 (by decide) (by decide)⟩

/-- The last element of `p :: (l ++ [a])` is `a`. -/
@[simp] theorem getLast_cons_append_singleton {α : Type _} (p : α) (l : List α) (a : α) :
    (p :: (l ++ [a])).getLast (List.cons_ne_nil p (l ++ [a])) = a :=
  List.getLast_append_singleton (p :: l)

/-- **C7.** `calculate_trend_metrics` on a list of (timestamp, value)
pairs: `none` below 2 points; otherwise change, percent change (0 when the
first value is 0), `duration_hours = max(0, Δt in hours)` and slope per
hour (0 when the duration is 0), taken from the first and last entries. -/
theorem C7_trend_metrics_spec :
    (∀ series : List (ℤ × ℚ), series.length < 2 →
      calculateTrendMetrics (series.map (fun p => (p.1, some p.2))) = none) ∧
    (∀ (t0 : ℤ) (v0 : ℚ) (mid : List (ℤ × ℚ)) (t1 : ℤ) (v1 : ℚ),
      calculateTrendMetrics
          ((((t0, v0) : ℤ × ℚ) :: mid ++ [((t1, v1) : ℤ × ℚ)]).map
            (fun p => (p.1, some p.2))) =
        some ⟨v0, v1, v1 - v0,
          (if v0 = 0 then 0 else (v1 - v0) / v0 * 100),
          (if max (((t1 - t0 : ℤ) : ℚ) / 3600) 0 = 0 then 0
            else (v1 - v0) / max (((t1 - t0 : ℤ) : ℚ) / 3600) 0),
          max (((t1 - t0 : ℤ) : ℚ) / 3600) 0,
          mid.length + 2⟩) := by
  constructor
  · intro series h
    rcases series with _ | ⟨a, _ | ⟨b, rest⟩⟩
    · rfl
    · rfl
    · simp only [List.length_cons] at h
      omega
  · intro t0 v0 mid t1 v1
    have hdur : (0 : ℚ) ≤ max (((t1 - t0 : ℤ) : ℚ) / 3600) 0 := le_max_right _ _
    have hslope : ∀ c : ℚ,
        (if 0 < max (((t1 - t0 : ℤ) : ℚ) / 3600) 0
          then c / max (((t1 - t0 : ℤ) : ℚ) / 3600) 0 else 0) =
        (if max (((t1 - t0 : ℤ) : ℚ) / 3600) 0 = 0 then 0
          else c / max (((t1 - t0 : ℤ) : ℚ) / 3600) 0) := by
      intro c
      by_cases hd : max (((t1 - t0 : ℤ) : ℚ) / 3600) 0 = 0
      · rw [if_pos hd, if_neg (by rw [hd]; exact lt_irrefl 0)]
      · rw [if_neg hd, if_pos (lt_of_le_of_ne hdur (Ne.symm hd))]
    have hpc : ∀ c : ℚ,
        (if v0 ≠ 0 then c / v0 * 100 else 0) =
        (if v0 = 0 then 0 else c / v0 * 100) := by
      intro c
      by_cases hv : v0 = 0
      · rw [if_neg (by simpa using hv), if_pos hv]
      · rw [if_pos hv, if_neg hv]
    rcases mid with _ | ⟨m, ms⟩
    · simp only [List.nil_append, List.map_cons, List.map_nil, calculateTrendMetrics,
        List.getLast_singleton']
      refine congrArg some ?_
      congr 1
      all_goals first
        | exact hpc (v1 - v0)
        | exact hslope (v1 - v0)
    · simp only [List.cons_append, List.map_cons, List.map_append, List.map_nil,
        calculateTrendMetrics, getLast_cons_append_singleton]
      refine congrArg some ?_
      congr 1
      all_goals first
        | exact hpc (v1 - v0)
        | exact hslope (v1 - v0)
        | (simp only [List.length_cons, List.length_append, List.length_map,
            List.length_nil]; try omega)

/-- **C7 witness**: a singleton series gives `none`; the spec's example
`[(t0, 10), (t0 + 1h, 10)]` gives zero change, percent and slope. -/
theorem C7_trend_metrics_spec_witness :
    (([((0 : ℤ), (10 : ℚ))] : List (ℤ × ℚ)).length < 2 ∧
      calculateTrendMetrics [((0 : ℤ), some (10 : ℚ))] = none) ∧
    calculateTrendMetrics [((0 : ℤ), some (10 : ℚ)), ((3600 : ℤ), some (10 : ℚ))] =
      some ⟨10, 10, 0, 0, 0, 1, 2⟩ := by
  refine ⟨⟨by decide, ?_⟩, ?_⟩
  · exact C7_trend_metrics_spec.1 [((0 : ℤ), (10 : ℚ))] (by decide)
  · have h := C7_trend_metrics_spec.2 0 10 [] 3600 10
    simpa using h

/-- **C2 counterexample.** With the base timestamp 420 s (7 min) past the
epoch — not aligned to the 15-minute grid — the scenario's output buckets
are anchored at epoch-aligned boundaries `0/900/1800`, not at
`base/base+900/base+1800`, and carry averages `20/24/30` with counts
`1/2/1` instead of the claimed `21/26/30` with `2/1/1`. -/
theorem C2_counterexample_unaligned_base :
    queryHistoricalAverages
        ⟨some 420, some 3120, none, some "device-001", none, some "temperature"⟩ 15
        [⟨"device-001", 540, none, none, some 20, none⟩,
         ⟨"device-001", 1020, none, none, some 22, none⟩,
         ⟨"device-001", 1620, none, none, some 26, none⟩,
         ⟨"device-001", 2520, none, none, some 30, none⟩] =
      .ok ⟨[⟨0, 900, "device-001", "temperature", 20, 1⟩,
            ⟨900, 1800, "device-001", "temperature", 24, 2⟩,
            ⟨1800, 2700, "device-001", "temperature", 30, 1⟩], 3, 15,
        ⟨some 420, some 3120, none, some "device-001", none, some "temperature"⟩⟩ ∧
    queryHistoricalAverages
        ⟨some 420, some 3120, none, some "device-001", none, some "temperature"⟩ 15
        [⟨"device-001", 540, none, none, some 20, none⟩,
         ⟨"device-001", 1020, none, none, some 22, none⟩,
         ⟨"device-001", 1620, none, none, some 26, none⟩,
         ⟨"device-001", 2520, none, none, some 30, none⟩] ≠
      .ok ⟨[⟨420, 1320, "device-001", "temperature", 21, 2⟩,
            ⟨1320, 2220, "device-001", "temperature", 26, 1⟩,
            ⟨2220, 3120, "device-001", "temperature", 30, 1⟩], 3, 15,
        ⟨some 420, some 3120, none, some "device-001", none, some "temperature"⟩⟩ := by
  have h : queryHistoricalAverages
      ⟨some 420, some 3120, none, some "device-001", none, some "temperature"⟩ 15
      [⟨"device-001", 540, none, none, some 20, none⟩,
       ⟨"device-001", 1020, none, none, some 22, none⟩,
       ⟨"device-001", 1620, none, none, some 26, none⟩,
       ⟨"device-001", 2520, none, none, some 30, none⟩] =
      .ok ⟨[⟨0, 900, "device-001", "temperature", 20, 1⟩,
            ⟨900, 1800, "device-001", "temperature", 24, 2⟩,
            ⟨1800, 2700, "device-001", "temperature", 30, 1⟩], 3, 15,
        ⟨some 420, some 3120, none, some "device-001", none, some "temperature"⟩⟩ := by
    norm_num [queryHistoricalAverages, queryHistoricalAveragesBody, parameterFilter, isMetricSupported, SUPPORTED_METRICS,
      ALLOWED_AVERAGE_INTERVALS, List.find?,
      getSupportedMetrics, supportedAttr, candidateMetrics, startAlignedOf, endAlignedOf,
      startReference, endReference, minTimestamp, maxTimestamp, floorToInterval, ceilToInterval,
      bucketStep, metricStep, inWindow, bumpBucket, Measurement.getField, List.insertionSort,
      List.orderedInsert, dpLe,
      (show (("temperature" : String) = "") = False from by simp),
      (show Int.fdiv 420 900 = 0 from rfl), (show Int.fdiv 540 900 = 0 from rfl),
      (show Int.fdiv 1020 900 = 1 from rfl), (show Int.fdiv 1620 900 = 1 from rfl),
      (show Int.fdiv 2520 900 = 2 from rfl), (show Int.fdiv 3120 900 = 3 from rfl)]
    exact List.cons_ne_nil _ _
  refine ⟨h, fun hc => ?_⟩
  rw [h] at hc
  have h2 := Except.ok.inj hc
  have h3 := congrArg HistoricalAveragesResponse.data_points h2
  simp only [] at h3
  exact absurd (congrArg HistoricalAverageDataPoint.interval_start
    (List.head_eq_of_cons_eq h3)) (by norm_num)

/-- **C2 (amended).** For every base timestamp aligned to the 15-minute
epoch grid (`base = k·900` seconds), the four-reading scenario with
interval 15 min and window `[base, base+45min]` yields exactly the three
claimed buckets: `[base, base+15min)` average 21 count 2,
`[base+15min, base+30min)` average 26 count 1, and
`[base+30min, base+45min)` average 30 count 1. -/
theorem C2_aligned_base_buckets (k : ℤ) :
    queryHistoricalAverages
        ⟨some (900 * k), some (900 * k + 2700), none, some "device-001", none,
          some "temperature"⟩ 15
        [⟨"device-001", 900 * k + 120, none, none, some 20, none⟩,
         ⟨"device-001", 900 * k + 600, none, none, some 22, none⟩,
         ⟨"device-001", 900 * k + 1200, none, none, some 26, none⟩,
         ⟨"device-001", 900 * k + 2100, none, none, some 30, none⟩] =
      .ok ⟨[⟨k * 900, k * 900 + 900, "device-001", "temperature", 21, 2⟩,
            ⟨(k + 1) * 900, (k + 1) * 900 + 900, "device-001", "temperature", 26, 1⟩,
            ⟨(k + 2) * 900, (k + 2) * 900 + 900, "device-001", "temperature", 30, 1⟩],
        3, 15,
        ⟨some (900 * k), some (900 * k + 2700), none, some "device-001", none,
          some "temperature"⟩⟩ := by
  have hdiv : ∀ m r : ℤ, 0 ≤ r → r < 900 → Int.fdiv (900 * m + r) 900 = m := by
    intro m r h0 h1
    rw [Int.fdiv_eq_ediv _ (by norm_num)]
    omega
  have fbase : Int.fdiv (900 * k) 900 = k := by
    have h := hdiv k 0 le_rfl (by norm_num)
    rw [add_zero] at h
    exact h
  have f120 : Int.fdiv (900 * k + 120) 900 = k := hdiv k 120 (by norm_num) (by norm_num)
  have f600 : Int.fdiv (900 * k + 600) 900 = k := hdiv k 600 (by norm_num) (by norm_num)
  have f1200 : Int.fdiv (900 * k + 1200) 900 = k + 1 := by
    rw [show (900 * k + 1200 : ℤ) = 900 * (k + 1) + 300 by ring]
    exact hdiv (k + 1) 300 (by norm_num) (by norm_num)
  have f2100 : Int.fdiv (900 * k + 2100) 900 = k + 2 := by
    rw [show (900 * k + 2100 : ℤ) = 900 * (k + 2) + 300 by ring]
    exact hdiv (k + 2) 300 (by norm_num) (by norm_num)
  have f2700 : Int.fdiv (900 * k + 2700) 900 = k + 3 := by
    rw [show (900 * k + 2700 : ℤ) = 900 * (k + 3) + 0 by ring]
    exact hdiv (k + 3) 0 le_rfl (by norm_num)
  norm_num [queryHistoricalAverages, queryHistoricalAveragesBody, parameterFilter, isMetricSupported, SUPPORTED_METRICS,
    ALLOWED_AVERAGE_INTERVALS, List.find?,
    getSupportedMetrics, supportedAttr, candidateMetrics, startAlignedOf, endAlignedOf,
    startReference, endReference, floorToInterval, ceilToInterval,
    bucketStep, metricStep, inWindow, bumpBucket, Measurement.getField, List.insertionSort,
    List.orderedInsert, dpLe, Option.getD,
    (show (("temperature" : String) = "") = False from by simp),
    fbase, f120, f600, f1200, f2100, f2700,
    (show ((k + 3) * 900 : ℤ) = 900 * k + 2700 from by ring),
    (show ¬ (900 * k + 120 < 900 * k) from by omega),
    (show ¬ (900 * k + 600 < 900 * k) from by omega),
    (show ¬ (900 * k + 1200 < 900 * k) from by omega),
    (show ¬ (900 * k + 2100 < 900 * k) from by omega),
    (show ¬ (900 * k + 2700 < 900 * k + 120) from by omega),
    (show ¬ (900 * k + 2700 < 900 * k + 600) from by omega),
    (show ¬ (900 * k + 2700 < 900 * k + 1200) from by omega),
    (show ¬ (900 * k + 2700 < 900 * k + 2100) from by omega),
    (show ¬ ((k + 1) * 900 < k * 900) from by omega),
    (show ¬ ((k + 2) * 900 < k * 900) from by omega),
    (show ¬ (k * 900 = 900 * k + 2700) from by omega),
    (show ¬ (900 * k + 2700 ≤ k * 900) from by omega),
    (show ¬ (900 * k + 2700 ≤ (k + 1) * 900) from by omega),
    (show ¬ (900 * k + 2700 ≤ (k + 2) * 900) from by omega),
    (show ¬ (k * 900 = (k + 1) * 900) from by omega),
    (show ¬ (k * 900 = (k + 2) * 900) from by omega),
    (show ¬ ((k + 1) * 900 = (k + 2) * 900) from by omega),
    (show ((k * 900 : ℤ) < (k + 1) * 900) from by omega),
    (show (((k + 1) * 900 : ℤ) < (k + 2) * 900) from by omega)]
  exact List.cons_ne_nil _ _

/-- Membership in a Python-style dict update: the new key, or anything
already present. -/
theorem mem_dictSet {β : Type _} (key : String) (v : β)
    (l : List (String × β)) (cid : String) :
    (∃ r, (cid, r) ∈ dictSet key v l) ↔ (cid = key ∨ ∃ r, (cid, r) ∈ l) := by
  induction l with
  | nil => simp [dictSet]
  | cons p rest ih =>
      obtain ⟨k, w⟩ := p
      by_cases hk : k = key
      · subst hk
        simp only [dictSet, if_pos rfl]
        constructor
        · rintro ⟨r, hr⟩
          rcases List.mem_cons.1 hr with h | h
          · exact .inl (by cases h; rfl)
          · exact .inr ⟨r, List.mem_cons_of_mem _ h⟩
        · rintro (rfl | ⟨r, hr⟩)
          · exact ⟨v, List.mem_cons_self _ _⟩
          · rcases List.mem_cons.1 hr with h | h
            · cases h
              exact ⟨v, List.mem_cons_self _ _⟩
            · exact ⟨r, List.mem_cons_of_mem _ h⟩
      · simp only [dictSet, if_neg hk]
        constructor
        · rintro ⟨r, hr⟩
          rcases List.mem_cons.1 hr with h | h
          · exact .inr ⟨r, by cases h; exact List.mem_cons_self _ _⟩
          · rcases (ih.1 ⟨r, h⟩) with h1 | ⟨r2, h2⟩
            · exact .inl h1
            · exact .inr ⟨r2, List.mem_cons_of_mem _ h2⟩
        · rintro (rfl | ⟨r, hr⟩)
          · obtain ⟨r, hr⟩ := ih.2 (.inl rfl)
            exact ⟨r, List.mem_cons_of_mem _ hr⟩
          · rcases List.mem_cons.1 hr with h | h
            · cases h
              exact ⟨w, List.mem_cons_self _ _⟩
            · obtain ⟨r2, h2⟩ := ih.2 (.inr ⟨r, h⟩)
              exact ⟨r2, List.mem_cons_of_mem _ h2⟩

/-- The per-controller step of `_generate_multi_report_impl`'s loop. -/
noncomputable def multiReportStep (fetch : String → Except AnalyticsError (List Measurement))
    (request : MultiReportRequest)
    (reports : List (String × AnalyticsReport)) (controller_id : String) :
    List (String × AnalyticsReport) :=
  match controllerOutcome fetch request controller_id with
  | .ok (some report) => dictSet controller_id report reports
  | .ok none => reports
  | .error _ => reports

theorem multiReportImpl_reports (fetch : String → Except AnalyticsError (List Measurement))
    (request : MultiReportRequest) :
    (multiReportImpl fetch request).reports =
      request.controllers.foldl (multiReportStep fetch request) [] := rfl

/-- Membership after folding the controller loop from any accumulator. -/
theorem mem_foldl_multiReportStep
    (fetch : String → Except AnalyticsError (List Measurement))
    (request : MultiReportRequest) (controllers : List String)
    (acc : List (String × AnalyticsReport)) (cid : String) :
    (∃ r, (cid, r) ∈ controllers.foldl (multiReportStep fetch request) acc) ↔
      ((∃ r, (cid, r) ∈ acc) ∨
        (cid ∈ controllers ∧
          ∃ report, controllerOutcome fetch request cid = .ok (some report))) := by
  induction controllers generalizing acc with
  | nil => simp
  | cons c cs ih =>
      rw [List.foldl_cons, ih]
      have hstep : (∃ r, (cid, r) ∈ multiReportStep fetch request acc c) ↔
          ((cid = c ∧ ∃ report, controllerOutcome fetch request c = .ok (some report)) ∨
            ∃ r, (cid, r) ∈ acc) := by
        unfold multiReportStep
        cases hoc : controllerOutcome fetch request c with
        | error e => simp [hoc]
        | ok o =>
            cases o with
            | none => simp [hoc]
            | some rep => simp [mem_dictSet, hoc]
      rw [hstep]
      simp only [List.mem_cons]
      constructor
      · rintro ((⟨rfl, h⟩ | h) | ⟨h1, h2⟩)
        · exact .inr ⟨.inl rfl, h⟩
        · exact .inl h
        · exact .inr ⟨.inr h1, h2⟩
      · rintro (h | ⟨(rfl | h1), h2⟩)
        · exact .inl (.inr h)
        · exact .inl (.inl ⟨rfl, h2⟩)
        · exact .inr ⟨h1, h2⟩

/-- **C5.** `generate_multi_report` partial-failure semantics: the totals
always echo the requested counts, and a controller appears in the result
map iff it was requested and its fetch-and-compute pipeline succeeded with
a report (any per-controller error, or an empty fetch, leaves it absent;
every succeeding controller is present). -/
theorem C5_multi_report_partial_failure
    (fetch : String → Except AnalyticsError (List Measurement))
    (request : MultiReportRequest) :
    (multiReportImpl fetch request).total_controllers = request.controllers.length ∧
    (multiReportImpl fetch request).total_metrics = request.metrics.length ∧
    ∀ controller_id,
      (∃ report, (controller_id, report) ∈ (multiReportImpl fetch request).reports) ↔
        (controller_id ∈ request.controllers ∧
          ∃ report,
            controllerOutcome fetch request controller_id = .ok (some report)) := by
  refine ⟨rfl, rfl, fun cid => ?_⟩
  rw [multiReportImpl_reports, mem_foldl_multiReportStep]
  simp

/-- Unsupported metric names contribute nothing to the inner metric loop:
filtering them away beforehand leaves the result unchanged. -/
theorem allMetricsFor_filter (metrics : List String)
    (measurements : List Measurement) (controller_id : String) :
    allMetricsFor (metrics.filter (fun m => isMetricSupported m))
        measurements controller_id =
      allMetricsFor metrics measurements controller_id := by
  induction metrics with
  | nil => rfl
  | cons m rest ih =>
      by_cases h : isMetricSupported m
      · rw [List.filter_cons_of_pos (by simpa using h)]
        simp [allMetricsFor, h, ih]
      · rw [List.filter_cons_of_neg (by simpa using h), ih]
        simp [allMetricsFor, h]

/-- **C9.** `generate_multi_report` never raises `InvalidMetricError`: an
unsupported requested metric is silently dropped (the result map is the
one computed from the supported metrics only) while `total_metrics` still
counts it; `generate_single_metric_report` instead rejects the same name
up front. -/
theorem C9_multi_report_skips_unsupported :
    (∀ (fetch : String → Except AnalyticsError (List Measurement))
        (request : MultiReportRequest),
      (multiReportImpl fetch request).reports =
        (multiReportImpl fetch ⟨request.controllers,
          request.metrics.filter (fun m => isMetricSupported m),
          request.filters⟩).reports ∧
      (multiReportImpl fetch request).total_metrics = request.metrics.length) ∧
    (∀ (metric_name controller_id : String) (filters : AnalyticsFilter)
        (measurements : List Measurement),
      ¬ isMetricSupported metric_name →
      singleMetricReportImpl metric_name controller_id filters measurements =
        .error (.invalidMetric metric_name getSupportedMetrics)) := by
  constructor
  · intro fetch request
    refine ⟨?_, rfl⟩
    rw [multiReportImpl_reports, multiReportImpl_reports]
    apply List.foldl_ext
    intro acc cid _
    unfold multiReportStep controllerOutcome
    simp only [allMetricsFor_filter]
  · intro metric_name controller_id filters measurements h
    unfold singleMetricReportImpl
    rw [if_pos h]

/-- **C9 witness**: the unsupported name "pressure" is rejected by the
single-metric report. -/
theorem C9_multi_report_skips_unsupported_witness :
    (¬ isMetricSupported "pressure") ∧
    singleMetricReportImpl "pressure" "device-001" {} [] =
      .error (.invalidMetric "pressure" getSupportedMetrics) :=
  ⟨by decide, C9_multi_report_skips_unsupported.2 "pressure" "device-001" {} [] (by decide)⟩

/-- The condition under which `calculate_dew_point` raises inside the
temperature bundle: overlapping temperature+humidity measurements exist
but their average air humidity fails the `0 < h ≤ 100` check (with
validated measurements this means every overlapping humidity is 0). -/
def dewGuardFires (measurements : List Measurement) : Prop :=
  humidOverlap measurements ≠ [] ∧
    (avgOverlapHumidity measurements ≤ 0 ∨ 100 < avgOverlapHumidity measurements)

instance (measurements : List Measurement) : Decidable (dewGuardFires measurements) := by
  unfold dewGuardFires
  infer_instance

theorem calculateDewPoint_ok (t h : ℚ) (hg : ¬ (h ≤ 0 ∨ 100 < h)) :
    ∃ v, calculateDewPoint t h = .ok v := by
  unfold calculateDewPoint
  rw [if_neg hg]
  exact ⟨_, rfl⟩

theorem dewVpdResults_cases (measurements : List Measurement) (controller_id : String) :
    (∃ l, dewVpdResults measurements controller_id = .ok l) ∨
    (dewVpdResults measurements controller_id =
        .error (.valueError "Humidity must be between 0 and 100") ∧
      dewGuardFires measurements) := by
  unfold dewVpdResults
  by_cases hh : humidOverlap measurements = []
  · rw [if_pos hh]
    exact .inl ⟨[], rfl⟩
  · rw [if_neg hh]
    by_cases hg : avgOverlapHumidity measurements ≤ 0 ∨ 100 < avgOverlapHumidity measurements
    · right
      refine ⟨?_, hh, hg⟩
      unfold calculateDewPoint
      rw [if_pos hg]
    · obtain ⟨v, hv⟩ := calculateDewPoint_ok (avgOverlapTemperature measurements)
        (avgOverlapHumidity measurements) hg
      rw [hv]
      exact .inl ⟨_, rfl⟩

theorem dewVpdResults_ok (measurements : List Measurement) (controller_id : String)
    (hno : ¬ dewGuardFires measurements) :
    ∃ l, dewVpdResults measurements controller_id = .ok l := by
  rcases dewVpdResults_cases measurements controller_id with h | ⟨_, hg⟩
  · exact h
  · exact absurd hg hno

theorem calculateTemperatureMetrics_none (measurements : List Measurement)
    (controller_id : String) (h : ∀ m ∈ measurements, m.temperature = none) :
    calculateTemperatureMetrics measurements controller_id = .ok [] := by
  unfold calculateTemperatureMetrics
  rw [if_pos (List.filter_eq_nil_iff.mpr (fun m hm => by simp [h m hm]))]

theorem calculateTemperatureMetrics_cases (measurements : List Measurement)
    (controller_id : String)
    (h : measurements.filter (fun m => m.temperature.isSome) ≠ []) :
    (∃ rs, calculateTemperatureMetrics measurements controller_id = .ok rs ∧ rs ≠ []) ∨
    (dewGuardFires measurements ∧
      ∃ msg, calculateTemperatureMetrics measurements controller_id =
        .error (.valueError msg)) := by
  unfold calculateTemperatureMetrics
  rw [if_neg h]
  rcases dewVpdResults_cases measurements controller_id with ⟨l, hl⟩ | ⟨he, hg⟩
  · rw [hl]
    exact .inl ⟨_, rfl, by simp⟩
  · rw [he]
    exact .inr ⟨hg, _, rfl⟩

theorem calculateHumidityAirMetrics_none (measurements : List Measurement)
    (controller_id : String) (h : ∀ m ∈ measurements, m.air_humidity = none) :
    calculateHumidityAirMetrics measurements controller_id = .ok [] := by
  unfold calculateHumidityAirMetrics
  rw [if_pos (List.filter_eq_nil_iff.mpr (fun m hm => by simp [h m hm]))]

theorem calculateHumidityAirMetrics_result (measurements : List Measurement)
    (controller_id : String)
    (h : measurements.filter (fun m => m.air_humidity.isSome) ≠ []) :
    ∃ rs, calculateHumidityAirMetrics measurements controller_id = .ok rs ∧ rs ≠ [] := by
  unfold calculateHumidityAirMetrics
  rw [if_neg h]
  exact ⟨_, rfl, by simp⟩

theorem calculateHumiditySoilMetrics_none (measurements : List Measurement)
    (controller_id : String) (h : ∀ m ∈ measurements, m.soil_humidity = none) :
    calculateHumiditySoilMetrics measurements controller_id = .ok [] := by
  unfold calculateHumiditySoilMetrics
  rw [if_pos (List.filter_eq_nil_iff.mpr (fun m hm => by simp [h m hm]))]

theorem calculateHumiditySoilMetrics_result (measurements : List Measurement)
    (controller_id : String)
    (h : measurements.filter (fun m => m.soil_humidity.isSome) ≠ []) :
    ∃ rs, calculateHumiditySoilMetrics measurements controller_id = .ok rs ∧ rs ≠ [] := by
  unfold calculateHumiditySoilMetrics
  rw [if_neg h]
  exact ⟨_, rfl, by simp⟩

theorem calculateBasicStatistics_mean_nonneg (values : List ℚ)
    (h : ∀ x ∈ values, 0 ≤ x) : 0 ≤ (calculateBasicStatistics values).mean := by
  cases values with
  | nil => simp [calculateBasicStatistics]
  | cons v vs =>
      show 0 ≤ (v :: vs).sum / ((v :: vs).length : ℚ)
      exact div_nonneg (List.sum_nonneg h) (by positivity)

theorem calculateLightMetrics_none (measurements : List Measurement)
    (controller_id : String) (h : ∀ m ∈ measurements, m.light_intensity = none) :
    calculateLightMetrics measurements controller_id = .ok [] := by
  unfold calculateLightMetrics
  rw [if_pos (List.filter_eq_nil_iff.mpr (fun m hm => by simp [h m hm]))]

theorem calculateLightMetrics_result (measurements : List Measurement)
    (controller_id : String)
    (h : measurements.filter (fun m => m.light_intensity.isSome) ≠ [])
    (hvalid : ∀ m ∈ measurements, validMeasurement m) :
    ∃ rs, calculateLightMetrics measurements controller_id = .ok rs ∧ rs ≠ [] := by
  have hmean : 0 ≤ (calculateBasicStatistics
      ((measurements.filter (fun m => m.light_intensity.isSome)).filterMap
        (fun m => m.light_intensity))).mean := by
    apply calculateBasicStatistics_mean_nonneg
    intro x hx
    obtain ⟨m, hm, hsome⟩ := List.mem_filterMap.1 hx
    exact (hvalid m (List.mem_of_mem_filter hm)).2.2.2.2 x hsome
  have hdli : calculateDailyLightIntegral (calculateBasicStatistics
      ((measurements.filter (fun m => m.light_intensity.isSome)).filterMap
        (fun m => m.light_intensity))).mean =
      .ok ((calculateBasicStatistics
        ((measurements.filter (fun m => m.light_intensity.isSome)).filterMap
          (fun m => m.light_intensity))).mean * (3600 * 24) / 1000000) := by
    unfold calculateDailyLightIntegral
    rw [if_neg (not_lt.mpr hmean)]
  unfold calculateLightMetrics
  rw [if_neg h]
  simp only []
  rw [hdli]
  exact ⟨_, rfl, by simp⟩

@[simp] theorem getField_temperature (m : Measurement) :
    m.getField "temperature" = m.temperature := rfl

@[simp] theorem getField_air_humidity (m : Measurement) :
    m.getField "air_humidity" = m.air_humidity := rfl

@[simp] theorem getField_soil_humidity (m : Measurement) :
    m.getField "soil_humidity" = m.soil_humidity := rfl

@[simp] theorem getField_light_intensity (m : Measurement) :
    m.getField "light_intensity" = m.light_intensity := rfl

theorem calcMetricsForSensor_temperature (ms : List Measurement) (cid : String) :
    calcMetricsForSensor "temperature" ms cid = calculateTemperatureMetrics ms cid := rfl

theorem calcMetricsForSensor_air (ms : List Measurement) (cid : String) :
    calcMetricsForSensor "air_humidity" ms cid = calculateHumidityAirMetrics ms cid := rfl

theorem calcMetricsForSensor_soil (ms : List Measurement) (cid : String) :
    calcMetricsForSensor "soil_humidity" ms cid = calculateHumiditySoilMetrics ms cid := rfl

theorem calcMetricsForSensor_light (ms : List Measurement) (cid : String) :
    calcMetricsForSensor "light_intensity" ms cid = calculateLightMetrics ms cid := rfl

/-- The metric bundle of a supported metric over validated measurements is
empty exactly when no measurement carries the field; when some measurement
carries it, the bundle is nonempty unless the temperature dew-point guard
fires (the only error path). -/
theorem calcMetricsForSensor_trichotomy (metric_name : String)
    (ms : List Measurement) (cid : String)
    (hsup : isMetricSupported metric_name)
    (hvalid : ∀ m ∈ ms, validMeasurement m) :
    ((∀ m ∈ ms, m.getField metric_name = none) ∧
      calcMetricsForSensor metric_name ms cid = .ok []) ∨
    ((∃ m ∈ ms, (m.getField metric_name).isSome) ∧
      ((∃ rs, calcMetricsForSensor metric_name ms cid = .ok rs ∧ rs ≠ []) ∨
        (metric_name = "temperature" ∧ dewGuardFires ms ∧
          ∃ msg, calcMetricsForSensor metric_name ms cid = .error (.valueError msg)))) := by
  have hnames : metric_name = "temperature" ∨ metric_name = "air_humidity" ∨
      metric_name = "soil_humidity" ∨ metric_name = "light_intensity" := by
    simpa [isMetricSupported, SUPPORTED_METRICS] using hsup
  have hmem : ∀ (f : Measurement → Option ℚ),
      ms.filter (fun m => (f m).isSome) ≠ [] → ∃ m ∈ ms, (f m).isSome := by
    intro f hf
    obtain ⟨m, hm⟩ := List.exists_mem_of_ne_nil _ hf
    exact ⟨m, List.mem_of_mem_filter hm, (List.mem_filter.1 hm).2⟩
  have hnone : ∀ (f : Measurement → Option ℚ),
      ms.filter (fun m => (f m).isSome) = [] → ∀ m ∈ ms, f m = none := by
    intro f hf m hm
    have := List.filter_eq_nil_iff.mp hf m hm
    simpa [Option.not_isSome_iff_eq_none] using this
  rcases hnames with rfl | rfl | rfl | rfl
  · by_cases hf : ms.filter (fun m => m.temperature.isSome) = []
    · exact .inl ⟨fun m hm => hnone _ hf m hm,
        by rw [calcMetricsForSensor_temperature]
           exact calculateTemperatureMetrics_none ms cid (hnone _ hf)⟩
    · refine .inr ⟨hmem _ hf, ?_⟩
      rcases calculateTemperatureMetrics_cases ms cid hf with h | ⟨hg, msg, he⟩
      · exact .inl (by rw [calcMetricsForSensor_temperature]; exact h)
      · exact .inr ⟨rfl, hg, msg, by rw [calcMetricsForSensor_temperature]; exact he⟩
  · by_cases hf : ms.filter (fun m => m.air_humidity.isSome) = []
    · exact .inl ⟨fun m hm => hnone _ hf m hm,
        by rw [calcMetricsForSensor_air]
           exact calculateHumidityAirMetrics_none ms cid (hnone _ hf)⟩
    · exact .inr ⟨hmem _ hf,
        .inl (by rw [calcMetricsForSensor_air]
                 exact calculateHumidityAirMetrics_result ms cid hf)⟩
  · by_cases hf : ms.filter (fun m => m.soil_humidity.isSome) = []
    · exact .inl ⟨fun m hm => hnone _ hf m hm,
        by rw [calcMetricsForSensor_soil]
           exact calculateHumiditySoilMetrics_none ms cid (hnone _ hf)⟩
    · exact .inr ⟨hmem _ hf,
        .inl (by rw [calcMetricsForSensor_soil]
                 exact calculateHumiditySoilMetrics_result ms cid hf)⟩
  · by_cases hf : ms.filter (fun m => m.light_intensity.isSome) = []
    · exact .inl ⟨fun m hm => hnone _ hf m hm,
        by rw [calcMetricsForSensor_light]
           exact calculateLightMetrics_none ms cid (hnone _ hf)⟩
    · exact .inr ⟨hmem _ hf,
        .inl (by rw [calcMetricsForSensor_light]
                 exact calculateLightMetrics_result ms cid hf hvalid)⟩

/-- The two `InsufficientDataError` messages of
`_generate_single_metric_report_impl` never coincide (their lengths
differ). -/
theorem singleReport_messages_ne (metric_name controller_id : String) :
    ("No data found for controller " ++ controller_id) ≠
      ("No " ++ metric_name ++ " data available for controller " ++ controller_id) := by
  intro he
  have hl := congrArg String.length he
  simp only [String.length_append,
    (show String.length "No data found for controller " = 29 from rfl),
    (show String.length "No " = 3 from rfl),
    (show String.length " data available for controller " = 31 from rfl)] at hl
  omega

/-- **C4 (amended).** For a supported metric over validated measurements:
the report fails with the "no data for controller" `InsufficientData`
error iff the fetch was empty; it fails with the "no `metric` data"
`InsufficientData` error iff measurements exist but none carries the
field; the two messages are distinct; and when the field is present it
returns a report with `data_points_count` = number fetched — unless the
metric is temperature and the dew-point humidity guard fires, the one
error path the original claim misses. -/
theorem C4_single_report_error_cases (metric_name controller_id : String)
    (filters : AnalyticsFilter) (measurements : List Measurement)
    (hsup : isMetricSupported metric_name)
    (hvalid : ∀ m ∈ measurements, validMeasurement m) :
    (singleMetricReportImpl metric_name controller_id filters measurements =
        .error (.insufficientData ("No data found for controller " ++ controller_id)) ↔
      measurements = []) ∧
    (singleMetricReportImpl metric_name controller_id filters measurements =
        .error (.insufficientData
          ("No " ++ metric_name ++ " data available for controller " ++ controller_id)) ↔
      (measurements ≠ [] ∧ ∀ m ∈ measurements, m.getField metric_name = none)) ∧
    ((measurements ≠ [] ∧ (∃ m ∈ measurements, (m.getField metric_name).isSome) ∧
        ¬ (metric_name = "temperature" ∧ dewGuardFires measurements)) →
      ∃ report, singleMetricReportImpl metric_name controller_id filters measurements =
          .ok report ∧ report.data_points_count = measurements.length) ∧
    ("No data found for controller " ++ controller_id ≠
      "No " ++ metric_name ++ " data available for controller " ++ controller_id) := by
  have hmsg := singleReport_messages_ne metric_name controller_id
  by_cases hne : measurements = []
  · subst hne
    have hsingle : singleMetricReportImpl metric_name controller_id filters [] =
        .error (.insufficientData ("No data found for controller " ++ controller_id)) := by
      unfold singleMetricReportImpl
      rw [if_neg (by simp [hsup]), if_pos rfl]
    refine ⟨?_, ?_, ?_, hmsg⟩
    · simp [hsingle]
    · rw [hsingle]
      simp [hmsg]
    · rintro ⟨h, _⟩
      exact absurd rfl h
  · have hrun : singleMetricReportImpl metric_name controller_id filters measurements =
        (match calcMetricsForSensor metric_name measurements controller_id with
         | .error e => .error e
         | .ok metric_results =>
             if metric_results.isEmpty then
               .error (.insufficientData
                 ("No " ++ metric_name ++ " data available for controller " ++ controller_id))
             else .ok ⟨controller_id, metric_results, measurements.length, filters⟩) := by
      unfold singleMetricReportImpl
      rw [if_neg (by simp [hsup]), if_neg hne]
    rcases calcMetricsForSensor_trichotomy metric_name measurements controller_id hsup hvalid
      with ⟨hall, hcalc⟩ | ⟨hsome, hres⟩
    · have hsingle : singleMetricReportImpl metric_name controller_id filters measurements =
          .error (.insufficientData
            ("No " ++ metric_name ++ " data available for controller " ++ controller_id)) := by
        rw [hrun, hcalc]
        rfl
      refine ⟨?_, ?_, ?_, hmsg⟩
      · rw [hsingle]
        constructor
        · intro h
          exact absurd (AnalyticsError.insufficientData.inj (Except.error.inj h)).symm hmsg
        · intro h
          exact absurd h hne
      · rw [hsingle]
        exact ⟨fun _ => ⟨hne, hall⟩, fun _ => rfl⟩
      · rintro ⟨_, ⟨m, hm, hs⟩, _⟩
        rw [hall m hm] at hs
        simp at hs
    · rcases hres with ⟨rs, hcalc, hrs⟩ | ⟨hname, hguard, msg, hcalc⟩
      · have hsingle : singleMetricReportImpl metric_name controller_id filters measurements =
            .ok ⟨controller_id, rs, measurements.length, filters⟩ := by
          rw [hrun, hcalc]
          simp [List.isEmpty_iff, hrs]
        refine ⟨?_, ?_, ?_, hmsg⟩
        · rw [hsingle]
          simp [hne]
        · rw [hsingle]
          constructor
          · intro h
            simp at h
          · rintro ⟨_, hall⟩
            obtain ⟨m, hm, hs⟩ := hsome
            rw [hall m hm] at hs
            simp at hs
        · intro _
          exact ⟨_, hsingle, rfl⟩
      · have hsingle : singleMetricReportImpl metric_name controller_id filters measurements =
            .error (.valueError msg) := by
          rw [hrun, hcalc]
        refine ⟨?_, ?_, ?_, hmsg⟩
        · rw [hsingle]
          simp [hne]
        · rw [hsingle]
          constructor
          · intro h
            simp at h
          · rintro ⟨_, hall⟩
            obtain ⟨m, hm, hs⟩ := hsome
            rw [hall m hm] at hs
            simp at hs
        · rintro ⟨_, _, hnog⟩
          exact absurd ⟨hname, hguard⟩ hnog

/-- **C4 counterexample.** A validated measurement with temperature 20 °C
and air humidity exactly 0 makes `generate_single_metric_report`
("temperature") raise the dew-point `ValueError` — an error that is
neither of the two `InsufficientData` cases, and no report is returned. -/
theorem C4_counterexample_zero_humidity_dew_point :
    validMeasurement ⟨"c", 0, none, some 0, some 20, none⟩ ∧
    singleMetricReportImpl "temperature" "c" {}
        [⟨"c", 0, none, some 0, some 20, none⟩] =
      .error (.valueError "Humidity must be between 0 and 100") ∧
    (∀ msg, (.error (.valueError "Humidity must be between 0 and 100") :
        Except AnalyticsError AnalyticsReport) ≠ .error (.insufficientData msg)) ∧
    (∀ report, (.error (.valueError "Humidity must be between 0 and 100") :
        Except AnalyticsError AnalyticsReport) ≠ .ok report) := by
  have havg : avgOverlapHumidity [⟨"c", 0, none, some 0, some 20, none⟩] = 0 := by
    norm_num [avgOverlapHumidity, humidOverlap, List.filterMap_cons, List.sum_cons]
  have hdv : dewVpdResults [⟨"c", 0, none, some 0, some 20, none⟩] "c" =
      .error (.valueError "Humidity must be between 0 and 100") := by
    unfold dewVpdResults
    rw [if_neg (by simp [humidOverlap])]
    unfold calculateDewPoint
    rw [if_pos (by rw [havg]; exact .inl le_rfl)]
  have hcalc : calculateTemperatureMetrics [⟨"c", 0, none, some 0, some 20, none⟩] "c" =
      .error (.valueError "Humidity must be between 0 and 100") := by
    unfold calculateTemperatureMetrics
    rw [if_neg (by simp)]
    rw [hdv]
  refine ⟨by decide, ?_, fun msg h => AnalyticsError.noConfusion (Except.error.inj h),
    fun report h => Except.noConfusion h⟩
  unfold singleMetricReportImpl
  rw [if_neg (by decide), if_neg (by simp), calcMetricsForSensor_temperature, hcalc]

/-- **C4 witness**: one validated temperature-only measurement produces an
`ok` report with `data_points_count = 1`, and the two error cases are
characterized as in the amended claim. -/
theorem C4_single_report_error_cases_witness :
    (isMetricSupported "temperature" ∧
      ∀ m ∈ [(⟨"c", 0, none, none, some 20, none⟩ : Measurement)], validMeasurement m) ∧
    ((singleMetricReportImpl "temperature" "c" {}
          [⟨"c", 0, none, none, some 20, none⟩] =
        .error (.insufficientData ("No data found for controller " ++ "c")) ↔
      [(⟨"c", 0, none, none, some 20, none⟩ : Measurement)] = []) ∧
    (singleMetricReportImpl "temperature" "c" {}
          [⟨"c", 0, none, none, some 20, none⟩] =
        .error (.insufficientData
          ("No " ++ "temperature" ++ " data available for controller " ++ "c")) ↔
      ([(⟨"c", 0, none, none, some 20, none⟩ : Measurement)] ≠ [] ∧
        ∀ m ∈ [(⟨"c", 0, none, none, some 20, none⟩ : Measurement)],
          m.getField "temperature" = none)) ∧
    (([(⟨"c", 0, none, none, some 20, none⟩ : Measurement)] ≠ [] ∧
        (∃ m ∈ [(⟨"c", 0, none, none, some 20, none⟩ : Measurement)],
          (m.getField "temperature").isSome) ∧
        ¬ ("temperature" = "temperature" ∧
          dewGuardFires [(⟨"c", 0, none, none, some 20, none⟩ : Measurement)])) →
      ∃ report, singleMetricReportImpl "temperature" "c" {}
            [⟨"c", 0, none, none, some 20, none⟩] =
          .ok report ∧
        report.data_points_count =
          [(⟨"c", 0, none, none, some 20, none⟩ : Measurement)].length) ∧
    ("No data found for controller " ++ "c" ≠
      "No " ++ "temperature" ++ " data available for controller " ++ "c")) :=
  ⟨⟨by decide, by decide⟩,
    C4_single_report_error_cases "temperature" "c" {}
      [⟨"c", 0, none, none, some 20, none⟩] (by decide) (by decide)⟩

/-! ### Bucketing completeness (claim C3) -/

/-- The clamped floored timestamp used as bucket key component. -/
def clampedStart (interval_delta start_aligned : ℤ) (m : Measurement) : ℤ :=
  if floorToInterval m.timestamp interval_delta < start_aligned then start_aligned
  else floorToInterval m.timestamp interval_delta

/-- What the accumulation loop actually does with one measurement and one
candidate metric: it contributes iff it is in the filter window, carries
the field, and its clamped floored timestamp is below `end_aligned`. -/
def contributes (filters : HistoricalQueryFilter)
    (interval_delta start_aligned end_aligned : ℤ) (metric : String)
    (m : Measurement) : Bool :=
  inWindow filters m && (m.getField (supportedAttr metric)).isSome &&
    !(decide (end_aligned ≤ clampedStart interval_delta start_aligned m))

/-- The claim-side predicate: non-null field, inside the filter window, and
timestamp in `[start_aligned, end_aligned)`. -/
def qualifies (filters : HistoricalQueryFilter)
    (start_aligned end_aligned : ℤ) (metric : String)
    (m : Measurement) : Bool :=
  (m.getField (supportedAttr metric)).isSome && inWindow filters m &&
    decide (start_aligned ≤ m.timestamp) && decide (m.timestamp < end_aligned)

/-- Sum of `measurements_count` over the output buckets of one metric. -/
def sumCounts (metric : String) (dps : List HistoricalAverageDataPoint) : ℕ :=
  (dps.map (fun dp => if dp.parameter = metric then dp.measurements_count else 0)).sum

/-- Sum of the running counts over the accumulator entries of one metric. -/
def totalCount (metric : String) (acc : BucketAcc) : ℕ :=
  (acc.map (fun e => if e.1.2.1 = metric then e.2.2 else 0)).sum

/-- The `timedelta` size (in seconds) of an allowed interval. -/
def intervalDelta (average_interval : ℤ) : ℤ :=
  ((ALLOWED_AVERAGE_INTERVALS.find? (fun p => p.1 = average_interval)).map
    Prod.snd).getD 0

theorem floorToInterval_le (ts Δ : ℤ) (h : 0 < Δ) : floorToInterval ts Δ ≤ ts := by
  unfold floorToInterval
  rw [Int.fdiv_eq_ediv _ h.le]
  exact Int.ediv_mul_le ts (ne_of_gt h)

theorem floorToInterval_mono {a b : ℤ} (Δ : ℤ) (h : 0 < Δ) (hab : a ≤ b) :
    floorToInterval a Δ ≤ floorToInterval b Δ := by
  unfold floorToInterval
  rw [Int.fdiv_eq_ediv _ h.le, Int.fdiv_eq_ediv _ h.le]
  exact mul_le_mul_of_nonneg_right (Int.ediv_le_ediv h hab) h.le

theorem floorToInterval_lt_iff {ts e Δ : ℤ} (h : 0 < Δ) (he : Δ ∣ e) :
    floorToInterval ts Δ < e ↔ ts < e := by
  obtain ⟨q, rfl⟩ := he
  unfold floorToInterval
  rw [Int.fdiv_eq_ediv _ h.le]
  constructor
  · intro hlt
    have h1 : ts / Δ < q := by
      by_contra hq
      push_neg at hq
      have h2 : q * Δ ≤ ts / Δ * Δ := mul_le_mul_of_nonneg_right hq h.le
      nlinarith
    have h2 : ts < (ts / Δ + 1) * Δ := Int.lt_ediv_add_one_mul_self ts h
    have h3 : (ts / Δ + 1) * Δ ≤ q * Δ := mul_le_mul_of_nonneg_right (by omega) h.le
    nlinarith
  · intro hlt
    have h0 : ts / Δ * Δ ≤ ts := Int.ediv_mul_le ts (ne_of_gt h)
    linarith

theorem dvd_floorToInterval (ts Δ : ℤ) : Δ ∣ floorToInterval ts Δ :=
  ⟨Int.fdiv ts Δ, by unfold floorToInterval; ring⟩

theorem dvd_ceilToInterval (ts Δ : ℤ) : Δ ∣ ceilToInterval ts Δ := by
  unfold ceilToInterval
  by_cases h : floorToInterval ts Δ = ts
  · rw [if_pos h, ← h]
    exact dvd_floorToInterval ts Δ
  · rw [if_neg h]
    exact dvd_add (dvd_floorToInterval ts Δ) dvd_rfl

theorem dvd_startAlignedOf (filters : HistoricalQueryFilter) (Δ : ℤ)
    (ms : List Measurement) : Δ ∣ startAlignedOf filters Δ ms :=
  dvd_floorToInterval _ _

theorem dvd_endAlignedOf (filters : HistoricalQueryFilter) (Δ : ℤ)
    (ms : List Measurement) : Δ ∣ endAlignedOf filters Δ ms := by
  unfold endAlignedOf
  by_cases h : startAlignedOf filters Δ ms =
      ceilToInterval (endReference filters ms) Δ
  · rw [if_pos h]
    exact dvd_add (dvd_startAlignedOf filters Δ ms) dvd_rfl
  · rw [if_neg h]
    exact dvd_ceilToInterval _ _

theorem foldl_min_le_init (l : List Measurement) (a : ℤ) :
    l.foldl (fun acc x => min acc x.timestamp) a ≤ a := by
  induction l generalizing a with
  | nil => exact le_rfl
  | cons y ys ih => exact le_trans (ih (min a y.timestamp)) (min_le_left _ _)

theorem foldl_min_le_mem (l : List Measurement) :
    ∀ (a : ℤ) (x : Measurement), x ∈ l →
      l.foldl (fun acc z => min acc z.timestamp) a ≤ x.timestamp := by
  induction l with
  | nil =>
      intro a x hx
      cases hx
  | cons y ys ih =>
      intro a x hx
      rcases List.mem_cons.1 hx with rfl | hx'
      · exact le_trans (foldl_min_le_init ys (min a x.timestamp)) (min_le_right _ _)
      · exact ih (min a y.timestamp) x hx'

theorem minTimestamp_le (ms : List Measurement) (m : Measurement) (hm : m ∈ ms) :
    minTimestamp ms ≤ m.timestamp := by
  cases ms with
  | nil => cases hm
  | cons m0 rest =>
      rcases List.mem_cons.1 hm with rfl | hm'
      · exact foldl_min_le_init rest m.timestamp
      · exact foldl_min_le_mem rest m0.timestamp m hm'

theorem inWindow_start_le (filters : HistoricalQueryFilter) (m : Measurement)
    (hw : inWindow filters m = true) (s : ℤ) (hs : filters.start_time = some s) :
    s ≤ m.timestamp := by
  unfold inWindow at hw
  rw [hs] at hw
  simp only [Bool.and_eq_true, Bool.not_eq_true'] at hw
  have := hw.1
  simpa using this

theorem startAligned_le_timestamp (filters : HistoricalQueryFilter) (Δ : ℤ)
    (ms : List Measurement) (m : Measurement) (hΔ : 0 < Δ) (hm : m ∈ ms)
    (hw : inWindow filters m = true) :
    startAlignedOf filters Δ ms ≤ m.timestamp := by
  unfold startAlignedOf startReference
  cases hs : filters.start_time with
  | some s =>
      simp only [Option.getD_some]
      exact le_trans (floorToInterval_le s Δ hΔ) (inWindow_start_le filters m hw s hs)
  | none =>
      simp only [Option.getD_none]
      exact le_trans (floorToInterval_le _ Δ hΔ) (minTimestamp_le ms m hm)

theorem startAligned_le_floor (filters : HistoricalQueryFilter) (Δ : ℤ)
    (ms : List Measurement) (m : Measurement) (hΔ : 0 < Δ) (hm : m ∈ ms)
    (hw : inWindow filters m = true) :
    startAlignedOf filters Δ ms ≤ floorToInterval m.timestamp Δ := by
  unfold startAlignedOf startReference
  cases hs : filters.start_time with
  | some s =>
      simp only [Option.getD_some]
      exact floorToInterval_mono Δ hΔ (inWindow_start_le filters m hw s hs)
  | none =>
      simp only [Option.getD_none]
      exact floorToInterval_mono Δ hΔ (minTimestamp_le ms m hm)

/-- On measurements of the input list, the loop's contribution condition
coincides with the claim-side `qualifies` predicate. -/
theorem contributes_eq_qualifies (filters : HistoricalQueryFilter) (Δ : ℤ)
    (ms : List Measurement) (metric : String) (m : Measurement)
    (hΔ : 0 < Δ) (hm : m ∈ ms) :
    contributes filters Δ (startAlignedOf filters Δ ms) (endAlignedOf filters Δ ms)
        metric m =
      qualifies filters (startAlignedOf filters Δ ms) (endAlignedOf filters Δ ms)
        metric m := by
  by_cases hw : inWindow filters m
  · have hfl := startAligned_le_floor filters Δ ms m hΔ hm hw
    have hts := startAligned_le_timestamp filters Δ ms m hΔ hm hw
    have hclamp : clampedStart Δ (startAlignedOf filters Δ ms) m =
        floorToInterval m.timestamp Δ := by
      unfold clampedStart
      rw [if_neg (not_lt.mpr hfl)]
    unfold contributes qualifies
    rw [hclamp, hw]
    cases hgf : (m.getField (supportedAttr metric)).isSome
    · simp
    · simp only [Bool.true_and, Bool.and_true]
      rw [decide_eq_true hts]
      simp only [Bool.true_and, Bool.and_true]
      rw [← decide_not]
      congr 1
      simp only [not_le, eq_iff_iff]
      exact floorToInterval_lt_iff hΔ (dvd_endAlignedOf filters Δ ms)
  · unfold contributes qualifies
    simp [hw]

theorem count_candidateMetrics (filters : HistoricalQueryFilter) (metric : String)
    (hm : metric ∈ candidateMetrics filters) :
    (candidateMetrics filters).count metric = 1 := by
  unfold candidateMetrics at hm ⊢
  cases hpf : parameterFilter filters with
  | some p =>
      rw [hpf] at hm
      have hm2 : metric = p := by simpa using hm
      subst hm2
      simp
  | none =>
      rw [hpf] at hm
      simp only [getSupportedMetrics, SUPPORTED_METRICS, List.map_cons, List.map_nil,
        List.mem_cons, List.not_mem_nil, or_false] at hm
      rcases hm with rfl | rfl | rfl | rfl
      all_goals decide

theorem totalCount_bumpBucket (metric : String) (key : String × String × ℤ)
    (v : ℚ) (acc : BucketAcc) :
    totalCount metric (bumpBucket key v acc) =
      totalCount metric acc + (if key.2.1 = metric then 1 else 0) := by
  induction acc with
  | nil =>
      by_cases h : key.2.1 = metric <;> simp [totalCount, bumpBucket, h]
  | cons e rest ih =>
      obtain ⟨k, sc, c⟩ := e
      by_cases hk : k = key
      · subst hk
        simp only [bumpBucket, if_pos rfl, totalCount, List.map_cons, List.sum_cons]
        by_cases h : k.2.1 = metric <;> (simp [h]; try omega)
      · simp only [bumpBucket, if_neg hk, totalCount, List.map_cons, List.sum_cons]
        have ih2 := ih
        simp only [totalCount] at ih2
        rw [ih2]
        omega

theorem totalCount_foldl_metricStep (Δ sA eA : ℤ) (m : Measurement)
    (candidates : List String) (acc : BucketAcc) (metric : String) :
    totalCount metric (candidates.foldl (metricStep Δ sA eA m) acc) =
      totalCount metric acc +
        (if ((m.getField (supportedAttr metric)).isSome ∧ ¬ (eA ≤ clampedStart Δ sA m))
          then candidates.count metric else 0) := by
  induction candidates generalizing acc with
  | nil => simp
  | cons name rest ih =>
      rw [List.foldl_cons, ih]
      have hstep : totalCount metric (metricStep Δ sA eA m acc name) =
          totalCount metric acc +
            (if (name = metric ∧ (m.getField (supportedAttr metric)).isSome ∧
                ¬ (eA ≤ clampedStart Δ sA m)) then 1 else 0) := by
        unfold metricStep
        cases hgf : m.getField (supportedAttr name) with
        | none =>
            by_cases hn : name = metric
            · subst hn
              simp [hgf]
            · simp [hn]
        | some v =>
            show totalCount metric
                (if eA ≤ clampedStart Δ sA m then acc
                 else bumpBucket (m.controller_id, name, clampedStart Δ sA m) v acc) = _
            by_cases hdrop : eA ≤ clampedStart Δ sA m
            · rw [if_pos hdrop]
              simp [hdrop]
            · rw [if_neg hdrop, totalCount_bumpBucket]
              by_cases hn : name = metric
              · subst hn
                simp [hgf, hdrop]
              · simp [hn]
      rw [hstep]
      by_cases hn : name = metric
      · subst hn
        by_cases hc : ((m.getField (supportedAttr name)).isSome ∧
            ¬ (eA ≤ clampedStart Δ sA m))
        · rw [if_pos ⟨rfl, hc.1, hc.2⟩, if_pos hc, if_pos hc, List.count_cons_self]
          ring
        · rw [if_neg (fun h => hc ⟨h.2.1, h.2.2⟩), if_neg hc, if_neg hc]
      · rw [if_neg (fun h => hn h.1),
          List.count_cons_of_ne (fun h => hn h.symm) rest]
        omega

theorem totalCount_foldl_bucketStep (filters : HistoricalQueryFilter)
    (Δ sA eA : ℤ) (candidates : List String) (ms : List Measurement)
    (acc : BucketAcc) (metric : String) :
    totalCount metric (ms.foldl (bucketStep filters Δ sA eA candidates) acc) =
      totalCount metric acc +
        (ms.countP (contributes filters Δ sA eA metric)) * candidates.count metric := by
  induction ms generalizing acc with
  | nil => simp
  | cons m rest ih =>
      rw [List.foldl_cons, ih]
      unfold bucketStep
      by_cases hw : inWindow filters m
      · rw [if_pos hw, totalCount_foldl_metricStep, List.countP_cons]
        by_cases hc : ((m.getField (supportedAttr metric)).isSome ∧
            ¬ (eA ≤ clampedStart Δ sA m))
        · have hcontr : contributes filters Δ sA eA metric m = true := by
            unfold contributes
            simp [hw, hc.1, hc.2]
          rw [if_pos hc, hcontr, if_pos rfl]
          ring
        · have hcontr : contributes filters Δ sA eA metric m = false := by
            unfold contributes
            rcases Decidable.not_and_iff_or_not.mp hc with h | h
            · simp [h]
            · simp [hw, not_not.mp (by simpa using h)]
          rw [if_neg hc, hcontr]
          simp
      · rw [if_neg hw]
        have hcontr : contributes filters Δ sA eA metric m = false := by
          unfold contributes
          simp [hw]
        rw [List.countP_cons, hcontr]
        simp [ih]

theorem sumCounts_filterMap (metric : String) (Δ : ℤ) (buckets : BucketAcc) :
    sumCounts metric (buckets.filterMap (fun e =>
        if e.2.2 = 0 then none
        else some ⟨e.1.2.2, e.1.2.2 + Δ, e.1.1, e.1.2.1,
          e.2.1 / (e.2.2 : ℚ), e.2.2⟩)) =
      totalCount metric buckets := by
  induction buckets with
  | nil => rfl
  | cons e rest ih =>
      rw [List.filterMap_cons]
      by_cases h0 : e.2.2 = 0
      · simp only [if_pos h0]
        rw [ih]
        simp [totalCount, h0]
      · simp only [if_neg h0]
        unfold sumCounts at ih ⊢
        simp only [List.map_cons, List.sum_cons]
        rw [ih]
        simp [totalCount]

theorem sumCounts_insertionSort (metric : String)
    (l : List HistoricalAverageDataPoint) :
    sumCounts metric (l.insertionSort dpLe) = sumCounts metric l := by
  unfold sumCounts
  exact ((List.perm_insertionSort dpLe l).map _).sum_eq

/-- **C3 (amended).** For every successful `query_historical_averages`
call and every candidate metric: the sum of `measurements_count` over the
output buckets of that metric equals the number of measurements that carry
the metric's field, lie inside the filter window, *and* have their
timestamp in `[start_aligned, end_aligned)` — each such measurement is
accumulated into exactly one bucket.  (The claim as stated omits the
filter-window condition.) -/
theorem C3_bucket_count_completeness (filters : HistoricalQueryFilter)
    (average_interval : ℤ) (measurements : List Measurement)
    (resp : HistoricalAveragesResponse)
    (h : queryHistoricalAverages filters average_interval measurements = .ok resp)
    (metric : String) (hmet : metric ∈ candidateMetrics filters) :
    sumCounts metric resp.data_points =
      measurements.countP
        (qualifies filters
          (startAlignedOf filters (intervalDelta average_interval) measurements)
          (endAlignedOf filters (intervalDelta average_interval) measurements)
          metric) := by
  unfold queryHistoricalAverages at h
  cases hfp : ALLOWED_AVERAGE_INTERVALS.find? (fun p => p.1 = average_interval) with
  | none =>
      rw [hfp] at h
      exact absurd h (by simp)
  | some ip =>
      rw [hfp] at h
      have hΔmem : ip ∈ ALLOWED_AVERAGE_INTERVALS := List.mem_of_find?_eq_some hfp
      have hΔpos : 0 < ip.2 := by fin_cases hΔmem <;> norm_num
      have hdelta : intervalDelta average_interval = ip.2 := by
        unfold intervalDelta
        rw [hfp]
        rfl
      rw [hdelta]
      have hcont : queryHistoricalAveragesBody filters average_interval ip measurements =
          Except.ok resp →
          sumCounts metric resp.data_points =
            measurements.countP
              (qualifies filters (startAlignedOf filters ip.2 measurements)
                (endAlignedOf filters ip.2 measurements) metric) := by
        intro h2
        unfold queryHistoricalAveragesBody at h2
        by_cases hms : measurements = []
        · rw [if_pos hms] at h2
          obtain rfl := Except.ok.inj h2
          subst hms
          simp [sumCounts]
        · rw [if_neg hms] at h2
          obtain rfl := Except.ok.inj h2
          show sumCounts metric ((List.filterMap _ _).insertionSort dpLe) = _
          rw [sumCounts_insertionSort, sumCounts_filterMap metric ip.2,
            totalCount_foldl_bucketStep, count_candidateMetrics filters metric hmet,
            mul_one]
          have h0 : totalCount metric [] = 0 := rfl
          rw [h0, Nat.zero_add]
          exact List.countP_congr (fun m hm => by
            rw [contributes_eq_qualifies filters ip.2 measurements metric m hΔpos hm])
      cases hpf : parameterFilter filters with
      | none =>
          rw [hpf] at h
          exact hcont h
      | some p =>
          rw [hpf] at h
          replace h : (if ¬ isMetricSupported p = true then
              (Except.error (.invalidMetric p getSupportedMetrics) :
                Except AnalyticsError HistoricalAveragesResponse)
            else queryHistoricalAveragesBody filters average_interval ip measurements) =
              Except.ok resp := h
          by_cases hps : isMetricSupported p
          · rw [if_neg (by simp [hps])] at h
            exact hcont h
          · rw [if_pos (by simp [hps])] at h
            exact absurd h (by simp)

/-- **C3 counterexample.** With filter window `[60 s, 840 s]` and interval
15 min, a temperature measurement at timestamp 0 lies inside
`[start_aligned, end_aligned) = [0, 900)` and carries the metric's field,
yet the filter-window check skips it: the response has no buckets at all,
so the sum of `measurements_count` is 0, not 1. -/
theorem C3_counterexample_window_filtered :
    queryHistoricalAverages
        ⟨some 60, some 840, none, some "c", none, some "temperature"⟩ 15
        [⟨"c", 0, none, none, some 20, none⟩] =
      .ok ⟨[], 0, 15, ⟨some 60, some 840, none, some "c", none, some "temperature"⟩⟩ ∧
    ((⟨"c", 0, none, none, some 20, none⟩ : Measurement).getField "temperature").isSome ∧
    startAlignedOf ⟨some 60, some 840, none, some "c", none, some "temperature"⟩
        (intervalDelta 15) [⟨"c", 0, none, none, some 20, none⟩] ≤
      (⟨"c", 0, none, none, some 20, none⟩ : Measurement).timestamp ∧
    (⟨"c", 0, none, none, some 20, none⟩ : Measurement).timestamp <
      endAlignedOf ⟨some 60, some 840, none, some "c", none, some "temperature"⟩
        (intervalDelta 15) [⟨"c", 0, none, none, some 20, none⟩] ∧
    sumCounts "temperature" ([] : List HistoricalAverageDataPoint) = 0 := by
  refine ⟨?_, by decide, by decide, by decide, rfl⟩
  norm_num [queryHistoricalAverages, queryHistoricalAveragesBody, parameterFilter,
    isMetricSupported, SUPPORTED_METRICS, ALLOWED_AVERAGE_INTERVALS, List.find?,
    getSupportedMetrics, supportedAttr, candidateMetrics, startAlignedOf, endAlignedOf,
    startReference, endReference, floorToInterval, ceilToInterval,
    bucketStep, metricStep, inWindow, bumpBucket, Measurement.getField,
    List.insertionSort, List.orderedInsert, dpLe,
    (show (("temperature" : String) = "") = False from by simp),
    (show Int.fdiv 60 900 = 0 from rfl), (show Int.fdiv 840 900 = 0 from rfl),
    (show Int.fdiv 0 900 = 0 from rfl)]

/-- **C3 witness**: one temperature measurement at the epoch with no filter
bounds lands in one bucket; the sum of counts is 1, matching the one
qualifying measurement. -/
theorem C3_bucket_count_completeness_witness :
    (queryHistoricalAverages {} 15 [⟨"c", 0, none, none, some 20, none⟩] =
        .ok ⟨[⟨0, 900, "c", "temperature", 20, 1⟩], 1, 15, {}⟩ ∧
      "temperature" ∈ candidateMetrics {}) ∧
    sumCounts "temperature"
        (HistoricalAveragesResponse.data_points
          ⟨[⟨0, 900, "c", "temperature", 20, 1⟩], 1, 15, {}⟩) =
      ([(⟨"c", 0, none, none, some 20, none⟩ : Measurement)]).countP
        (qualifies {}
          (startAlignedOf {} (intervalDelta 15) [⟨"c", 0, none, none, some 20, none⟩])
          (endAlignedOf {} (intervalDelta 15) [⟨"c", 0, none, none, some 20, none⟩])
          "temperature") := by
  have hresp : queryHistoricalAverages {} 15 [⟨"c", 0, none, none, some 20, none⟩] =
      .ok ⟨[⟨0, 900, "c", "temperature", 20, 1⟩], 1, 15, {}⟩ := by
    norm_num [queryHistoricalAverages, queryHistoricalAveragesBody, parameterFilter,
      isMetricSupported, SUPPORTED_METRICS, ALLOWED_AVERAGE_INTERVALS, List.find?,
      getSupportedMetrics, supportedAttr, candidateMetrics, startAlignedOf, endAlignedOf,
      startReference, endReference, minTimestamp, maxTimestamp, floorToInterval,
      ceilToInterval, bucketStep, metricStep, inWindow, bumpBucket, Measurement.getField,
      List.insertionSort, List.orderedInsert, dpLe, Option.getD,
      (show Int.fdiv 0 900 = 0 from rfl)]
  exact ⟨⟨hresp, by decide⟩,
    C3_bucket_count_completeness {} 15 [⟨"c", 0, none, none, some 20, none⟩] _ hresp
      "temperature" (by decide)⟩

end Rootly
